import Mathlib

/-!
Verification development for the AutoClaude webhook service
(`src/server.js` and the two historical variants of `src/claude-handler.js`).

The handlers are shallowly embedded as deterministic interpreters over an
explicit environment that fixes the outcome of every external call
(assistant subprocess, git commands, GitHub hosting calls).  Each external
call site of the JavaScript source corresponds to one field of the
environment; the interpreter records every attempted side effect in an
event trace and threads an explicit git working-tree state
(current branch + local branch list).

The assistant prompts are opaque to every claim (they are only ever passed
to the external assistant process, never inspected), so the prompt text is
not reproduced; assistant invocations are recorded as trace events.
-/

namespace AutoClaude

/-- Brace characters, named to keep string/char handling uniform. -/
def lbrace : Char := Char.ofNat 123

def rbrace : Char := Char.ofNat 125

/-- JSON values as produced by `JSON.parse`.  Numbers keep their source
text (all claims are insensitive to numeric value representation). -/
inductive Json where
  | null : Json
  | bool : Bool → Json
  | num : String → Json
  | str : String → Json
  | arr : List Json → Json
  | obj : List (String × Json) → Json
deriving Inhabited

/-- List-level check that `pat` occurs at the start of `l`. -/
def startsWithL (pat l : List Char) : Bool :=
  match pat, l with
  | [], _ => true
  | _ :: _, [] => false
  | p :: ps, c :: cs => p = c && startsWithL ps cs

/-- List-level substring check: does `pat` occur (contiguously) in `l`? -/
def containsL (pat : List Char) : List Char → Bool
  | [] => pat.isEmpty
  | c :: cs => startsWithL pat (c :: cs) || containsL pat cs

/-- Boolean substring check on strings (models JS `String.includes`). -/
def strContainsB (s pat : String) : Bool :=
  containsL pat.data s.data

/-- Propositional substring containment on strings. -/
def strContainsP (s pat : String) : Prop :=
  ∃ a b, s.data = a ++ pat.data ++ b

theorem data_append (a b : String) : (a ++ b).data = a.data ++ b.data := rfl

/-- JSON insignificant whitespace. -/
def isWsChar (c : Char) : Bool :=
  c = ' ' || c = '\n' || c = '\t' || c = '\r'

/-- Drop leading JSON whitespace. -/
def skipWs : List Char → List Char
  | [] => []
  | c :: cs => if isWsChar c then skipWs cs else c :: cs

/-- Whitespace characters removed by JS `String.trim`. -/
def jsTrim (s : String) : String :=
  String.mk (((s.data.dropWhile isWsChar).reverse.dropWhile isWsChar).reverse)

/-- Hex digit value, for JSON `\uXXXX` escapes. -/
def hexVal (c : Char) : Option Nat :=
  if 48 ≤ c.toNat ∧ c.toNat ≤ 57 then some (c.toNat - 48)
  else if 97 ≤ c.toNat ∧ c.toNat ≤ 102 then some (c.toNat - 87)
  else if 65 ≤ c.toNat ∧ c.toNat ≤ 70 then some (c.toNat - 55)
  else none

/-- Body of a JSON string literal (after the opening quote): returns the
decoded characters and the input following the closing quote. -/
def parseStringBody : Nat → List Char → Option (List Char × List Char)
  | 0, _ => none
  | _ + 1, [] => none
  | fuel + 1, c :: cs =>
    if c = '"' then some ([], cs)
    else if c = '\\' then
      match cs with
      | [] => none
      | e :: cs' =>
        if e = 'n' then (parseStringBody fuel cs').map fun p => ('\n' :: p.1, p.2)
        else if e = 't' then (parseStringBody fuel cs').map fun p => ('\t' :: p.1, p.2)
        else if e = 'r' then (parseStringBody fuel cs').map fun p => ('\r' :: p.1, p.2)
        else if e = 'b' then (parseStringBody fuel cs').map fun p => (Char.ofNat 8 :: p.1, p.2)
        else if e = 'f' then (parseStringBody fuel cs').map fun p => (Char.ofNat 12 :: p.1, p.2)
        else if e = '"' then (parseStringBody fuel cs').map fun p => ('"' :: p.1, p.2)
        else if e = '\\' then (parseStringBody fuel cs').map fun p => ('\\' :: p.1, p.2)
        else if e = '/' then (parseStringBody fuel cs').map fun p => ('/' :: p.1, p.2)
        else if e = 'u' then
          match cs' with
          | h1 :: h2 :: h3 :: h4 :: cs'' =>
            match hexVal h1, hexVal h2, hexVal h3, hexVal h4 with
            | some a, some b, some c2, some d =>
              (parseStringBody fuel cs'').map fun p =>
                (Char.ofNat (((a * 16 + b) * 16 + c2) * 16 + d) :: p.1, p.2)
            | _, _, _, _ => none
          | _ => none
        else none
    else if c.toNat < 32 then none
    else (parseStringBody fuel cs).map fun p => (c :: p.1, p.2)

/-- Literal keyword tail (`rue`, `alse`, `ull`). -/
def expectLit (lit : List Char) (cs : List Char) (v : Json) : Option (Json × List Char) :=
  if startsWithL lit cs then some (v, cs.drop lit.length) else none

/-- Optional fraction part of a JSON number. -/
def parseFrac : List Char → Option (List Char × List Char)
  | [] => some ([], [])
  | c :: t =>
    if c = '.' then
      let ds := t.takeWhile Char.isDigit
      if ds.isEmpty then none else some ('.' :: ds, t.drop ds.length)
    else some ([], c :: t)

/-- Optional exponent part of a JSON number. -/
def parseExp : List Char → Option (List Char × List Char)
  | [] => some ([], [])
  | c :: t =>
    if c = 'e' ∨ c = 'E' then
      let sn : List Char × List Char :=
        match t with
        | s :: t' => if s = '+' ∨ s = '-' then ([s], t') else ([], t)
        | [] => ([], [])
      let ds := sn.2.takeWhile Char.isDigit
      if ds.isEmpty then none else some (c :: (sn.1 ++ ds), sn.2.drop ds.length)
    else some ([], c :: t)

/-- JSON number literal (no leading zeros), kept as its source text. -/
def parseNumber (cs : List Char) : Option (Json × List Char) :=
  let sp : List Char × List Char :=
    match cs with
    | c :: t => if c = '-' then ([c], t) else ([], cs)
    | [] => ([], [])
  let ip := sp.2.takeWhile Char.isDigit
  if ip.isEmpty then none
  else if ip.length > 1 && decide (ip.head? = some '0') then none
  else
    match parseFrac (sp.2.drop ip.length) with
    | none => none
    | some (fp, r1) =>
      match parseExp r1 with
      | none => none
      | some (ep, r2) => some (Json.num (String.mk (sp.1 ++ ip ++ fp ++ ep)), r2)

/-- Recursive-descent JSON value parser, fuel-structural so that it
evaluates inside the kernel.  Objects and arrays are parsed one entry at a
time, re-entering the parser on a re-opened brace/bracket for the
remainder (a trailing comma is rejected, as `JSON.parse` does). -/
def parseValue : Nat → List Char → Option (Json × List Char)
  | 0, _ => none
  | fuel + 1, cs =>
    match skipWs cs with
    | [] => none
    | c :: rest =>
      if c = lbrace then
        match skipWs rest with
        | [] => none
        | c1 :: r1 =>
          if c1 = rbrace then some (Json.obj [], r1)
          else if c1 = '"' then
            match parseStringBody fuel r1 with
            | none => none
            | some (key, r2) =>
              match skipWs r2 with
              | ':' :: r3 =>
                match parseValue fuel r3 with
                | none => none
                | some (v, r4) =>
                  match skipWs r4 with
                  | ',' :: r5 =>
                    match skipWs r5 with
                    | '"' :: _ =>
                      match parseValue fuel (lbrace :: skipWs r5) with
                      | some (Json.obj fs, r6) =>
                        some (Json.obj ((String.mk key, v) :: fs), r6)
                      | _ => none
                    | _ => none
                  | c6 :: r6 =>
                    if c6 = rbrace then some (Json.obj [(String.mk key, v)], r6) else none
                  | [] => none
              | _ => none
          else none
      else if c = '[' then
        match skipWs rest with
        | [] => none
        | c1 :: _ =>
          if c1 = ']' then some (Json.arr [], (skipWs rest).drop 1)
          else
            match parseValue fuel rest with
            | none => none
            | some (v, r2) =>
              match skipWs r2 with
              | ',' :: r3 =>
                match skipWs r3 with
                | [] => none
                | c4 :: _ =>
                  if c4 = ']' then none
                  else
                    match parseValue fuel ('[' :: skipWs r3) with
                    | some (Json.arr xs, r4) => some (Json.arr (v :: xs), r4)
                    | _ => none
              | ']' :: r3 => some (Json.arr [v], r3)
              | _ => none
      else if c = '"' then
        (parseStringBody fuel rest).map fun p => (Json.str (String.mk p.1), p.2)
      else if c = 't' then expectLit ['r', 'u', 'e'] rest (Json.bool true)
      else if c = 'f' then expectLit ['a', 'l', 's', 'e'] rest (Json.bool false)
      else if c = 'n' then expectLit ['u', 'l', 'l'] rest Json.null
      else parseNumber (c :: rest)

/-- `JSON.parse`: a complete JSON text, with the model's uniform
syntax-error message. -/
def jsonParse (s : String) : Except String Json :=
  match parseValue (s.data.length + 1) s.data with
  | some (v, rest) =>
    if (skipWs rest).isEmpty then Except.ok v
    else Except.error "Unexpected token in JSON"
  | none => Except.error "Unexpected token in JSON"

example : jsonParse "\x7b\x7d" = Except.ok (Json.obj []) := rfl

example : jsonParse " \x7b \"a\" : 1 \x7d " =
    Except.ok (Json.obj [("a", Json.num "1")]) := rfl

example : jsonParse "\x7b\"canResolve\": true, \"confidence\": \"high\"\x7d" =
    Except.ok (Json.obj [("canResolve", Json.bool true), ("confidence", Json.str "high")]) := rfl

example : jsonParse "\x7b\"a\":1\x7d \x7b\"b\":2\x7d" =
    Except.error "Unexpected token in JSON" := rfl

example : jsonParse "[1, \"x\\n\", null, false]" =
    Except.ok (Json.arr [Json.num "1", Json.str "x\n", Json.null, Json.bool false]) := rfl

/-- The handler's analysis-extraction regex `/\{[\s\S]*\}/` applied to the
assistant output: it matches (greedily) from the first opening brace to the
last closing brace of the text, or fails when no such span exists.
(`claude-handler.js`, `analysisResult.match(...)`, both variants.) -/
def extractJson (s : String) : Option String :=
  let tail := s.data.dropWhile (fun c => !(c = lbrace))
  let upto := (tail.reverse.dropWhile (fun c => !(c = rbrace))).reverse
  if upto.isEmpty then none else some (String.mk upto)

/-- Modelled from the spec: "locating the first balanced JSON object
substring" — scan from the first opening brace, tracking brace depth, and
return the substring ending at the brace that balances it.  This is the
spec's description of the extraction step, written here only to be
compared against the source's `extractJson`. -/
def balanceScan (depth : Nat) (acc : List Char) : List Char → Option (List Char)
  | [] => none
  | c :: cs =>
    if c = lbrace then balanceScan (depth + 1) (c :: acc) cs
    else if c = rbrace then
      if depth = 1 then some (c :: acc).reverse
      else if depth = 0 then none
      else balanceScan (depth - 1) (c :: acc) cs
    else balanceScan depth (c :: acc) cs

/-- Modelled from the spec (see `balanceScan`): the first
brace-balanced object substring of the text. -/
def firstBalancedObject (s : String) : Option String :=
  (balanceScan 0 [] (s.data.dropWhile (fun c => !(c = lbrace)))).map String.mk

example : extractJson "noise \x7b\"a\":1\x7d tail" = some "\x7b\"a\":1\x7d" := rfl

example : extractJson "\x7b\"a\":1\x7d x \x7b\"b\":2\x7d" =
    some "\x7b\"a\":1\x7d x \x7b\"b\":2\x7d" := rfl

example : firstBalancedObject "\x7b\"a\":1\x7d x \x7b\"b\":2\x7d" =
    some "\x7b\"a\":1\x7d" := rfl

example : extractJson "no braces" = none := rfl

/-- `analysis = JSON.parse(match)`, or the errors thrown by the extraction
step / by `JSON.parse`, exactly as the `try` block of both variants
produces them. -/
def parseAnalysis (out : String) : Except String Json :=
  match extractJson out with
  | none => Except.error "No JSON found in response"
  | some js => jsonParse js

/-- JS property lookup on a parsed JSON value (`analysis[key]`); `none`
models `undefined`.  On duplicate keys `JSON.parse` keeps the last one. -/
def jget (j : Json) (k : String) : Option Json :=
  match j with
  | Json.obj fs => fs.foldl (fun acc p => if p.1 = k then some p.2 else acc) none
  | _ => none

/-- JS truthiness of a number literal: falsy exactly when the mantissa is
all zeros. -/
def numTruthy (raw : String) : Bool :=
  !((raw.data.takeWhile (fun c => !(c = 'e' ∨ c = 'E'))).all
      (fun c => c = '0' ∨ c = '-' ∨ c = '.'))

/-- JS truthiness of `analysis[key]` (`undefined`, `null`, `false`, `0`
and `""` are falsy). -/
def truthy : Option Json → Bool
  | none => false
  | some Json.null => false
  | some (Json.bool b) => b
  | some (Json.num raw) => numTruthy raw
  | some (Json.str s) => !(s = "")
  | some (Json.arr _) => true
  | some (Json.obj _) => true

/-- JS template-literal string conversion of a JSON value, fuel-structural
(fuel only matters for nested arrays). -/
def jshow : Nat → Json → String
  | _, Json.null => "null"
  | _, Json.bool true => "true"
  | _, Json.bool false => "false"
  | _, Json.num raw => raw
  | _, Json.str s => s
  | 0, Json.arr _ => ""
  | fuel + 1, Json.arr xs => String.intercalate "," (xs.map (jshow fuel))
  | _, Json.obj _ => "[object Object]"

/-- JS template-literal conversion of `analysis[key]` (an absent property
interpolates as `undefined`; the fuel bounds only the rendering depth of
nested arrays, which no claim exercises). -/
def jsToStr : Option Json → String
  | none => "undefined"
  | some j => jshow 4096 j

/-- `normalizeNewlines` over the character list: every (non-overlapping,
left to right) backslash-`n` pair becomes a newline character. -/
def normNL : List Char → List Char
  | [] => []
  | [c] => [c]
  | c1 :: c2 :: rest =>
    if c1 = '\\' ∧ c2 = 'n' then '\n' :: normNL rest
    else c1 :: normNL (c2 :: rest)

/-- `normalizeNewlines` from the token-REST variant of
`claude-handler.js`: `str.replace(/\\n/g, '\n')`. -/
def normalizeNewlines (s : String) : String :=
  String.mk (normNL s.data)

example : normalizeNewlines "a\\nb" = "a\nb" := rfl

example : normalizeNewlines "a\\\\nb" = "a\\\nb" := rfl

/-- Git commands issued by the handlers (the exact command lines are in
`claude-handler.js`; arguments that vary are kept). -/
inductive GitCmd where
  | checkoutNew : String → GitCmd
  | checkout : String → GitCmd
  | fetch : String → GitCmd
  | status : GitCmd
  | log : String → GitCmd
  | addAll : GitCmd
  | commit : String → GitCmd
  | push : String → Bool → GitCmd
  | deleteBranch : String → GitCmd
deriving DecidableEq, Repr

/-- One externally visible action attempted by a run. -/
inductive Event where
  | git : GitCmd → Event
  | claude : String → Event
  | prInfoLookup : Nat → Event
  | comment : String → String → Nat → String → Bool → Event
  | createPR : String → String → String → String → String → String → Event
deriving DecidableEq, Repr

/-- The git working tree: checked-out branch and the local branch list. -/
structure GitState where
  current : String
  branches : List String
deriving DecidableEq, Repr

/-- `git checkout -b name`. -/
def GitState.checkoutNew (s : GitState) (b : String) : GitState :=
  { current := b, branches := b :: s.branches }

/-- `git checkout name` (creates the local branch when only the fetched
remote ref exists, as git does). -/
def GitState.switch (s : GitState) (b : String) : GitState :=
  { current := b, branches := if b ∈ s.branches then s.branches else b :: s.branches }

/-- `git branch -D name`. -/
def GitState.deleteBranch (s : GitState) (b : String) : GitState :=
  { s with branches := s.branches.filter (fun x => !(x = b)) }

/-- Terminal outcome labels of one orchestrator run (spec `RunOutcome`);
each names the control-flow path on which the run ended. -/
inductive Outcome where
  | analysisFailed : Outcome
  | rejected : Outcome
  | noChangesNeeded : Outcome
  | fixPushedToExistingPR : Outcome
  | fixPullRequestCreated : Outcome
  | fixFailed : Outcome
deriving DecidableEq, Repr

/-- Result of one run: the trace of attempted external actions, the final
git state, the path label, and any exception escaping `handleIssue`
(caught and logged by the server). -/
structure RunResult where
  events : List Event
  git : GitState
  outcome : Outcome
  err : Option String
deriving DecidableEq, Repr

/-- The git commands of a trace. -/
def gitEvents (evs : List Event) : List Event :=
  evs.filter fun e => match e with | Event.git _ => true | _ => false

/-- The posted comments of a trace. -/
def commentEvents (evs : List Event) : List Event :=
  evs.filter fun e => match e with | Event.comment _ _ _ _ _ => true | _ => false

/-- Normalized work item handed to `handleIssue` (argument object of both
variants; `issueUrl` is accepted but never used by the handler). -/
structure WorkItem where
  issueNumber : Nat
  issueTitle : String
  issueBody : String
  issueUrl : String
  repoOwner : String
  repoName : String
  commentBody : Option String := none
  isPullRequest : Bool := false
deriving DecidableEq, Repr

/-- `issue` / `PR`, as interpolated into every message of variant 1. -/
def itemType (isPR : Bool) : String := if isPR then "PR" else "issue"

namespace V1

/-!
Variant 1 of `claude-handler.js` (gh-CLI hosting, issue and PR-comment
workflows).  `Env` fixes the result of each external call site, one field
per call site of the source (each site runs at most once per run).
-/

/-- Outcomes of the external world for one run of variant 1's
`handleIssue`.  `Except.error` at a field means that call rejects/throws
with that message. -/
structure Env where
  claudeAnalysis : Except String String
  claudeFix : Except String String
  prInfo : Except String (String × String)
  fetchPR : Except String Unit
  checkoutPR : Except String Unit
  checkoutNew : Except String Unit
  gitStatus : Except String String
  logOrigin : Except String String
  logLocal : Except String String
  noopCheckoutMain : Except String Unit
  noopDeleteBranch : Except String Unit
  addAll : Except String Unit
  commitAll : Except String Unit
  pushBranch : Except String Unit
  createPRRes : Except String (Option String × String)
  finalCheckoutMain : Except String Unit
  cleanupCheckoutMain : Except String Unit
  cleanupDeleteBranch : Except String Unit
  commentAnalysisFailed : Except String Unit
  commentCannotResolve : Except String Unit
  commentNoChanges : Except String Unit
  commentPushed : Except String Unit
  commentPRLink : Except String Unit
  commentFixFailed : Except String Unit
deriving Repr

/-- Body of the "Analysis Failed" comment (variant 1). -/
def analysisFailedBody (isPR : Bool) (emsg : String) : String :=
  "🤖 **AutoClaude Analysis Failed**\n\nI encountered an error while trying to analyze this "
    ++ itemType isPR
    ++ ". A human will need to review it.\n\nError: " ++ emsg

/-- Body of the "cannot be resolved" comment (variant 1). -/
def cannotResolveBody (isPR : Bool) (analysis : Json) : String :=
  "🤖 **AutoClaude Analysis**\n\nI've analyzed this " ++ itemType isPR
    ++ " and determined that it **cannot be resolved automatically**.\n\n**Reason:** "
    ++ jsToStr (jget analysis "reason")
    ++ "\n\n**Confidence:** " ++ jsToStr (jget analysis "confidence")
    ++ "\n\nThis " ++ itemType isPR ++ " requires human attention."

/-- Body of the "no changes were necessary" comment (variant 1). -/
def noChangesBody (isPR : Bool) (analysis : Json) : String :=
  "🤖 **AutoClaude Analysis**\n\nI analyzed this " ++ itemType isPR
    ++ " and attempted to create a fix, but no code changes were necessary or I couldn't determine the exact changes needed.\n\n**My Analysis:**\n"
    ++ jsToStr (jget analysis "reason")
    ++ "\n\n**Approach Considered:**\n" ++ jsToStr (jget analysis "approach")
    ++ "\n\nA human may need to review this " ++ itemType isPR ++ "."

/-- Body of the "changes pushed to this PR" comment (variant 1). -/
def pushedBody (fixResult : String) (analysis : Json) : String :=
  "🤖 **AutoClaude Changes Pushed**\n\nI've addressed the requested changes and pushed a new commit to this PR.\n\n**Changes Made:**\n"
    ++ fixResult
    ++ "\n\n**Analysis:**\n- **Confidence:** " ++ jsToStr (jget analysis "confidence")
    ++ "\n- **Complexity:** " ++ jsToStr (jget analysis "estimatedComplexity")
    ++ "\n- **Approach:** " ++ jsToStr (jget analysis "approach")
    ++ "\n\nPlease review the new changes."

/-- Body of the pull request created for an issue run (variant 1);
contains `Fixes #<n>` for auto-close on merge. -/
def prBodyText (n : Nat) (fixResult : String) (analysis : Json) : String :=
  "## Summary\nAutomated fix for #" ++ toString n
    ++ "\n\nFixes #" ++ toString n
    ++ "\n\n## Changes\n" ++ fixResult
    ++ "\n\n## Analysis\n- **Confidence:** " ++ jsToStr (jget analysis "confidence")
    ++ "\n- **Complexity:** " ++ jsToStr (jget analysis "estimatedComplexity")
    ++ "\n- **Approach:** " ++ jsToStr (jget analysis "approach")
    ++ "\n\n---\n🤖 This PR was automatically generated by AutoClaude."

/-- Body of the comment linking the created PR from the issue
(variant 1); `pr.number` is `null` when the URL had no `/pull/<n>` part. -/
def prLinkBody (prNumber : Option String) (prUrl : String) : String :=
  "🤖 **AutoClaude Fix Created**\n\nI've analyzed this issue and created a fix!\n\n**Pull Request:** #"
    ++ (match prNumber with | some s => s | none => "null")
    ++ "\n**Link:** " ++ prUrl
    ++ "\n\nPlease review the changes and merge if they look good. The issue will be automatically closed when the PR is merged."

/-- Body of the "Fix Failed" comment (variant 1). -/
def fixFailedBody (isPR : Bool) (analysis : Json) (emsg : String) : String :=
  "🤖 **AutoClaude Fix Failed**\n\nI analyzed this " ++ itemType isPR
    ++ " and attempted to create a fix, but encountered an error.\n\n**My Analysis:**\n- **Can Resolve:** Yes ("
    ++ jsToStr (jget analysis "confidence")
    ++ " confidence)\n- **Approach:** " ++ jsToStr (jget analysis "approach")
    ++ "\n\n**Error:** " ++ emsg
    ++ "\n\nA human will need to review this " ++ itemType isPR ++ "."

/-- Last step of the `catch` block: post the "Fix Failed" comment; a
rejection here escapes `handleIssue`. -/
def postFailComment (env : Env) (item : WorkItem) (analysis : Json) (emsg : String)
    (s : GitState) (evs : List Event) : RunResult :=
  { events := evs ++ [Event.comment item.repoOwner item.repoName item.issueNumber
        (fixFailedBody item.isPullRequest analysis emsg) item.isPullRequest]
    git := s
    outcome := Outcome.fixFailed
    err := match env.commentFixFailed with
           | Except.ok _ => none
           | Except.error e => some e }

/-- The `catch` block of variant 1's big `try`: best-effort checkout of
`main`, best-effort delete of the fresh branch for issue runs (both
swallowed on failure), then the failure comment. -/
def catchBlock (env : Env) (item : WorkItem) (analysis : Json)
    (branchName : Option String) (emsg : String) (s : GitState) (evs : List Event) : RunResult :=
  let evs := evs ++ [Event.git (GitCmd.checkout "main")]
  match env.cleanupCheckoutMain with
  | Except.error _ => postFailComment env item analysis emsg s evs
  | Except.ok _ =>
    let s := s.switch "main"
    match item.isPullRequest, branchName with
    | false, some b =>
      let evs := evs ++ [Event.git (GitCmd.deleteBranch b)]
      match env.cleanupDeleteBranch with
      | Except.ok _ => postFailComment env item analysis emsg (s.deleteBranch b) evs
      | Except.error _ => postFailComment env item analysis emsg s evs
    | _, _ => postFailComment env item analysis emsg s evs

/-- The no-changes branch (`!hasUncommittedChanges && !hasNewCommits`):
restore `main`, delete the fresh branch for issue runs, post the
"no changes" comment.  All of it sits inside the `try`, so any failure
jumps to the `catch`. -/
def noopPath (env : Env) (item : WorkItem) (analysis : Json) (branchName : String)
    (s : GitState) (evs : List Event) : RunResult :=
  let evs := evs ++ [Event.git (GitCmd.checkout "main")]
  match env.noopCheckoutMain with
  | Except.error e => catchBlock env item analysis (some branchName) e s evs
  | Except.ok _ =>
    let s := s.switch "main"
    if item.isPullRequest then
      let evs := evs ++ [Event.comment item.repoOwner item.repoName item.issueNumber
          (noChangesBody item.isPullRequest analysis) item.isPullRequest]
      match env.commentNoChanges with
      | Except.error e => catchBlock env item analysis (some branchName) e s evs
      | Except.ok _ =>
        { events := evs, git := s, outcome := Outcome.noChangesNeeded, err := none }
    else
      let evs := evs ++ [Event.git (GitCmd.deleteBranch branchName)]
      match env.noopDeleteBranch with
      | Except.error e => catchBlock env item analysis (some branchName) e s evs
      | Except.ok _ =>
        let s := s.deleteBranch branchName
        let evs := evs ++ [Event.comment item.repoOwner item.repoName item.issueNumber
            (noChangesBody item.isPullRequest analysis) item.isPullRequest]
        match env.commentNoChanges with
        | Except.error e => catchBlock env item analysis (some branchName) e s evs
        | Except.ok _ =>
          { events := evs, git := s, outcome := Outcome.noChangesNeeded, err := none }

/-- Commit (when there are uncommitted changes), push, publish and final
checkout of `main` — the tail of the `try` block. -/
def publishPath (env : Env) (item : WorkItem) (analysis : Json)
    (branchName baseBranch fixResult : String) (hasUncommitted : Bool)
    (s : GitState) (evs : List Event) : RunResult :=
  let commitMsg :=
    if item.isPullRequest then
      "fix: address review comments on PR #" ++ toString item.issueNumber
    else
      "fix: resolve issue #" ++ toString item.issueNumber ++ " - " ++ item.issueTitle
  let step : Except String (List Event) :=
    if hasUncommitted then
      match env.addAll with
      | Except.error e => Except.error e
      | Except.ok _ =>
        match env.commitAll with
        | Except.error e => Except.error e
        | Except.ok _ =>
          Except.ok (evs ++ [Event.git GitCmd.addAll, Event.git (GitCmd.commit commitMsg)])
    else Except.ok evs
  match step with
  | Except.error e =>
    let evs := if hasUncommitted then
        (match env.addAll with
         | Except.error _ => evs ++ [Event.git GitCmd.addAll]
         | Except.ok _ => evs ++ [Event.git GitCmd.addAll, Event.git (GitCmd.commit commitMsg)])
      else evs
    catchBlock env item analysis (some branchName) e s evs
  | Except.ok evs =>
    if item.isPullRequest then
      let evs := evs ++ [Event.git (GitCmd.push branchName false)]
      match env.pushBranch with
      | Except.error e => catchBlock env item analysis (some branchName) e s evs
      | Except.ok _ =>
        let evs := evs ++ [Event.comment item.repoOwner item.repoName item.issueNumber
            (pushedBody fixResult analysis) true]
        match env.commentPushed with
        | Except.error e => catchBlock env item analysis (some branchName) e s evs
        | Except.ok _ =>
          let evs := evs ++ [Event.git (GitCmd.checkout "main")]
          match env.finalCheckoutMain with
          | Except.error e => catchBlock env item analysis (some branchName) e s evs
          | Except.ok _ =>
            { events := evs, git := s.switch "main",
              outcome := Outcome.fixPushedToExistingPR, err := none }
    else
      let evs := evs ++ [Event.git (GitCmd.push branchName true)]
      match env.pushBranch with
      | Except.error e => catchBlock env item analysis (some branchName) e s evs
      | Except.ok _ =>
        let prTitle := "fix: " ++ item.issueTitle ++ " (Issue #" ++ toString item.issueNumber ++ ")"
        let evs := evs ++ [Event.createPR item.repoOwner item.repoName prTitle
            (prBodyText item.issueNumber fixResult analysis) branchName baseBranch]
        match env.createPRRes with
        | Except.error e => catchBlock env item analysis (some branchName) e s evs
        | Except.ok pr =>
          let evs := evs ++ [Event.comment item.repoOwner item.repoName item.issueNumber
              (prLinkBody pr.1 pr.2) false]
          match env.commentPRLink with
          | Except.error e => catchBlock env item analysis (some branchName) e s evs
          | Except.ok _ =>
            let evs := evs ++ [Event.git (GitCmd.checkout "main")]
            match env.finalCheckoutMain with
            | Except.error e => catchBlock env item analysis (some branchName) e s evs
            | Except.ok _ =>
              { events := evs, git := s.switch "main",
                outcome := Outcome.fixPullRequestCreated, err := none }

/-- Fix stage and change check (`runClaude(fixPrompt)`, `git status
--porcelain`, the defensive `git log` probes with their swallowed inner
failures), then dispatch to the no-op or publish tail. -/
def fixStage (env : Env) (item : WorkItem) (analysis : Json)
    (branchName baseBranch : String) (s : GitState) (evs : List Event) : RunResult :=
  let evs := evs ++ [Event.claude "fix"]
  match env.claudeFix with
  | Except.error e => catchBlock env item analysis (some branchName) e s evs
  | Except.ok fixResult =>
    let evs := evs ++ [Event.git GitCmd.status]
    match env.gitStatus with
    | Except.error e => catchBlock env item analysis (some branchName) e s evs
    | Except.ok statusOutput =>
      let logRange1 :=
        if item.isPullRequest then "origin/" ++ branchName ++ "..HEAD"
        else "origin/" ++ baseBranch ++ "..HEAD"
      let evs := evs ++ [Event.git (GitCmd.log logRange1)]
      let probe : Bool × List Event :=
        match env.logOrigin with
        | Except.ok d => (!(jsTrim d = ""), evs)
        | Except.error _ =>
          let evs := evs ++ [Event.git (GitCmd.log (baseBranch ++ "..HEAD"))]
          match env.logLocal with
          | Except.ok d => (!(jsTrim d = ""), evs)
          | Except.error _ => (false, evs)
      let hasNewCommits := probe.1
      let evs := probe.2
      let hasUncommitted := !(jsTrim statusOutput = "")
      if !hasUncommitted && !hasNewCommits then
        noopPath env item analysis branchName s evs
      else
        publishPath env item analysis branchName baseBranch fixResult hasUncommitted s evs

/-- Branch preparation (`try` block head): PR runs fetch + checkout the
PR's head branch, issue runs create `autoclaude/issue-<n>`. -/
def branchStage (env : Env) (item : WorkItem) (analysis : Json)
    (s : GitState) (evs : List Event) : RunResult :=
  if item.isPullRequest then
    let evs := evs ++ [Event.prInfoLookup item.issueNumber]
    match env.prInfo with
    | Except.error e => catchBlock env item analysis none e s evs
    | Except.ok hb =>
      let evs := evs ++ [Event.git (GitCmd.fetch hb.1)]
      match env.fetchPR with
      | Except.error e => catchBlock env item analysis (some hb.1) e s evs
      | Except.ok _ =>
        let evs := evs ++ [Event.git (GitCmd.checkout hb.1)]
        match env.checkoutPR with
        | Except.error e => catchBlock env item analysis (some hb.1) e s evs
        | Except.ok _ => fixStage env item analysis hb.1 hb.2 (s.switch hb.1) evs
  else
    let b := "autoclaude/issue-" ++ toString item.issueNumber
    let evs := evs ++ [Event.git (GitCmd.checkoutNew b)]
    match env.checkoutNew with
    | Except.error e => catchBlock env item analysis (some b) e s evs
    | Except.ok _ => fixStage env item analysis b "main" (s.checkoutNew b) evs

/-- Analysis-failure tail: post the "Analysis Failed" comment and return
(a comment rejection escapes `handleIssue`). -/
def analysisFailedResult (env : Env) (item : WorkItem) (emsg : String)
    (s : GitState) (evs : List Event) : RunResult :=
  { events := evs ++ [Event.comment item.repoOwner item.repoName item.issueNumber
        (analysisFailedBody item.isPullRequest emsg) item.isPullRequest]
    git := s
    outcome := Outcome.analysisFailed
    err := match env.commentAnalysisFailed with
           | Except.ok _ => none
           | Except.error e => some e }

/-- `canResolve` false: post the findings comment and return. -/
def rejectedResult (env : Env) (item : WorkItem) (analysis : Json)
    (s : GitState) (evs : List Event) : RunResult :=
  { events := evs ++ [Event.comment item.repoOwner item.repoName item.issueNumber
        (cannotResolveBody item.isPullRequest analysis) item.isPullRequest]
    git := s
    outcome := Outcome.rejected
    err := match env.commentCannotResolve with
           | Except.ok _ => none
           | Except.error e => some e }

/-- Variant 1 `handleIssue`: the full orchestrator run. -/
def handleIssue (env : Env) (item : WorkItem) (s0 : GitState) : RunResult :=
  let evs : List Event := [Event.claude "analysis"]
  match env.claudeAnalysis with
  | Except.error e => analysisFailedResult env item e s0 evs
  | Except.ok out =>
    match parseAnalysis out with
    | Except.error e => analysisFailedResult env item e s0 evs
    | Except.ok analysis =>
      if truthy (jget analysis "canResolve") then
        branchStage env item analysis s0 evs
      else
        rejectedResult env item analysis s0 evs

end V1

namespace V2

/-!
Variant 2 of `claude-handler.js` (token-authenticated REST hosting,
issue workflow only).  Hosting calls are skipped entirely when
`GITHUB_TOKEN` is absent: `postIssueComment` logs and returns,
`createPullRequest` logs and returns `null`.
-/

/-- Outcomes of the external world for one run of variant 2's
`handleIssue` (fields for hosting calls are consulted only when a token
is configured). -/
structure Env where
  token : Option String
  claudeAnalysis : Except String String
  claudeFix : Except String String
  checkoutNew : Except String Unit
  gitStatus : Except String String
  noopCheckoutMain : Except String Unit
  noopDeleteBranch : Except String Unit
  addAll : Except String Unit
  commitAll : Except String Unit
  pushBranch : Except String Unit
  createPRRes : Except String (Nat × String)
  finalCheckoutMain : Except String Unit
  cleanupCheckoutMain : Except String Unit
  cleanupDeleteBranch : Except String Unit
  commentAnalysisFailed : Except String Unit
  commentCannotResolve : Except String Unit
  commentNoChanges : Except String Unit
  commentPRLink : Except String Unit
  commentFixFailed : Except String Unit
deriving Repr

/-- `postIssueComment`: without a token it logs and returns (no comment
is posted, nothing thrown); with a token the REST call may fail. -/
def postIssueComment (token : Option String) (res : Except String Unit) (ev : Event)
    (evs : List Event) : List Event × Except String Unit :=
  match token with
  | none => (evs, Except.ok ())
  | some _ => (evs ++ [ev], res)

/-- `createPullRequest`: without a token it logs and returns `null`
(no REST call is attempted); with a token the REST call returns the PR or
throws. -/
def createPullRequest (token : Option String) (res : Except String (Nat × String))
    (ev : Event) (evs : List Event) : List Event × Except String (Option (Nat × String)) :=
  match token with
  | none => (evs, Except.ok none)
  | some _ => (evs ++ [ev], res.map some)

/-- Top-level string fields of the parsed analysis are passed through
`normalizeNewlines` (the `for (const key of Object.keys(analysis))`
loop). -/
def normalizeAnalysisFields : Json → Json
  | Json.obj fs =>
    Json.obj (fs.map fun p =>
      match p.2 with
      | Json.str s => (p.1, Json.str (normalizeNewlines s))
      | v => (p.1, v))
  | j => j

/-- Body of the "Analysis Failed" comment (variant 2). -/
def analysisFailedBody (emsg : String) : String :=
  " **AutoClaude Analysis Failed**\n\nI encountered an error while trying to analyze this issue. A human will need to review it.\n\nError: "
    ++ emsg

/-- Body of the "cannot be resolved" comment (variant 2). -/
def cannotResolveBody (analysis : Json) : String :=
  " **AutoClaude Analysis**\n\nI've analyzed this issue and determined that it **cannot be resolved automatically**.\n\n**Reason:** "
    ++ jsToStr (jget analysis "reason")
    ++ "\n\n**Confidence:** " ++ jsToStr (jget analysis "confidence")
    ++ "\n\nThis issue requires human attention."

/-- Body of the "no changes were necessary" comment (variant 2). -/
def noChangesBody (analysis : Json) : String :=
  " **AutoClaude Analysis**\n\nI analyzed this issue and attempted to create a fix, but no code changes were necessary or I couldn't determine the exact changes needed.\n\n**My Analysis:**\n"
    ++ jsToStr (jget analysis "reason")
    ++ "\n\n**Approach Considered:**\n" ++ jsToStr (jget analysis "approach")
    ++ "\n\nA human may need to review this issue."

/-- PR body (variant 2). -/
def prBodyText (n : Nat) (fixResult : String) (analysis : Json) : String :=
  "## Summary\nAutomated fix for #" ++ toString n
    ++ "\n\n## Changes\n" ++ fixResult
    ++ "\n\n## Analysis\n- **Confidence:** " ++ jsToStr (jget analysis "confidence")
    ++ "\n- **Complexity:** " ++ jsToStr (jget analysis "estimatedComplexity")
    ++ "\n- **Approach:** " ++ jsToStr (jget analysis "approach")
    ++ "\n\n---\n This PR was automatically generated by AutoClaude."

/-- Body of the comment linking the created PR (variant 2). -/
def prLinkBody (prNumber : Nat) (prUrl : String) : String :=
  " **AutoClaude Fix Created**\n\nI've analyzed this issue and created a fix!\n\n**Pull Request:** #"
    ++ toString prNumber
    ++ "\n**Link:** " ++ prUrl
    ++ "\n\nPlease review the changes and merge if they look good."

/-- Body of the "Fix Failed" comment (variant 2). -/
def fixFailedBody (analysis : Json) (emsg : String) : String :=
  " **AutoClaude Fix Failed**\n\nI analyzed this issue and attempted to create a fix, but encountered an error.\n\n**My Analysis:**\n- **Can Resolve:** Yes ("
    ++ jsToStr (jget analysis "confidence")
    ++ " confidence)\n- **Approach:** " ++ jsToStr (jget analysis "approach")
    ++ "\n\n**Error:** " ++ emsg
    ++ "\n\nA human will need to review this issue."

/-- Variant 2 run outcomes; `published` carries the `createPullRequest`
result (`none` = "PR not created", tolerated without failing). -/
inductive Outcome2 where
  | analysisFailed : Outcome2
  | rejected : Outcome2
  | noChangesNeeded : Outcome2
  | published : Option (Nat × String) → Outcome2
  | fixFailed : Outcome2
deriving DecidableEq, Repr

/-- Result of one variant 2 run. -/
structure RunResult2 where
  events : List Event
  git : GitState
  outcome : Outcome2
  err : Option String
deriving Repr

/-- The `catch` block of variant 2: best-effort checkout of `main` and
branch deletion (swallowed), then the failure comment. -/
def catchBlock (env : Env) (item : WorkItem) (analysis : Json) (branchName : String)
    (emsg : String) (s : GitState) (evs : List Event) : RunResult2 :=
  let evs := evs ++ [Event.git (GitCmd.checkout "main")]
  let cleaned : GitState × List Event :=
    match env.cleanupCheckoutMain with
    | Except.error _ => (s, evs)
    | Except.ok _ =>
      let s := s.switch "main"
      let evs := evs ++ [Event.git (GitCmd.deleteBranch branchName)]
      match env.cleanupDeleteBranch with
      | Except.ok _ => (s.deleteBranch branchName, evs)
      | Except.error _ => (s, evs)
  let posted := postIssueComment env.token env.commentFixFailed
    (Event.comment item.repoOwner item.repoName item.issueNumber
      (fixFailedBody analysis emsg) false) cleaned.2
  { events := posted.1
    git := cleaned.1
    outcome := Outcome2.fixFailed
    err := match posted.2 with | Except.ok _ => none | Except.error e => some e }

/-- The `try` block of variant 2: branch, fix, status check, then either
the no-op cleanup or commit/push/PR/link/final-checkout. -/
def tryBlock (env : Env) (item : WorkItem) (analysis : Json)
    (s : GitState) (evs : List Event) : RunResult2 :=
  let b := "autoclaude/issue-" ++ toString item.issueNumber
  let evs := evs ++ [Event.git (GitCmd.checkoutNew b)]
  match env.checkoutNew with
  | Except.error e => catchBlock env item analysis b e s evs
  | Except.ok _ =>
    let s := s.checkoutNew b
    let evs := evs ++ [Event.claude "fix"]
    match env.claudeFix with
    | Except.error e => catchBlock env item analysis b e s evs
    | Except.ok fixRaw =>
      let fixResult := normalizeNewlines fixRaw
      let evs := evs ++ [Event.git GitCmd.status]
      match env.gitStatus with
      | Except.error e => catchBlock env item analysis b e s evs
      | Except.ok statusOutput =>
        if jsTrim statusOutput = "" then
          let evs := evs ++ [Event.git (GitCmd.checkout "main")]
          match env.noopCheckoutMain with
          | Except.error e => catchBlock env item analysis b e s evs
          | Except.ok _ =>
            let s := s.switch "main"
            let evs := evs ++ [Event.git (GitCmd.deleteBranch b)]
            match env.noopDeleteBranch with
            | Except.error e => catchBlock env item analysis b e s evs
            | Except.ok _ =>
              let s := s.deleteBranch b
              let posted := postIssueComment env.token env.commentNoChanges
                (Event.comment item.repoOwner item.repoName item.issueNumber
                  (noChangesBody analysis) false) evs
              match posted.2 with
              | Except.error e => catchBlock env item analysis b e s posted.1
              | Except.ok _ =>
                { events := posted.1, git := s,
                  outcome := Outcome2.noChangesNeeded, err := none }
        else
          let evs := evs ++ [Event.git GitCmd.addAll]
          match env.addAll with
          | Except.error e => catchBlock env item analysis b e s evs
          | Except.ok _ =>
            let commitMsg := "fix: resolve issue #" ++ toString item.issueNumber
              ++ " - " ++ item.issueTitle
            let evs := evs ++ [Event.git (GitCmd.commit commitMsg)]
            match env.commitAll with
            | Except.error e => catchBlock env item analysis b e s evs
            | Except.ok _ =>
              let evs := evs ++ [Event.git (GitCmd.push b true)]
              match env.pushBranch with
              | Except.error e => catchBlock env item analysis b e s evs
              | Except.ok _ =>
                let prTitle := "fix: " ++ item.issueTitle ++ " (Issue #"
                  ++ toString item.issueNumber ++ ")"
                let createRes := createPullRequest env.token env.createPRRes
                  (Event.createPR item.repoOwner item.repoName prTitle
                    (prBodyText item.issueNumber fixResult analysis) b "main") evs
                match createRes.2 with
                | Except.error e => catchBlock env item analysis b e s createRes.1
                | Except.ok pr =>
                  let evs := createRes.1
                  let linked : List Event × Except String Unit :=
                    match pr with
                    | some p => postIssueComment env.token env.commentPRLink
                        (Event.comment item.repoOwner item.repoName item.issueNumber
                          (prLinkBody p.1 p.2) false) evs
                    | none => (evs, Except.ok ())
                  match linked.2 with
                  | Except.error e => catchBlock env item analysis b e s linked.1
                  | Except.ok _ =>
                    let evs := linked.1 ++ [Event.git (GitCmd.checkout "main")]
                    match env.finalCheckoutMain with
                    | Except.error e => catchBlock env item analysis b e s evs
                    | Except.ok _ =>
                      { events := evs, git := s.switch "main",
                        outcome := Outcome2.published pr, err := none }

/-- Variant 2 `handleIssue`. -/
def handleIssue (env : Env) (item : WorkItem) (s0 : GitState) : RunResult2 :=
  let evs : List Event := [Event.claude "analysis"]
  match env.claudeAnalysis with
  | Except.error e =>
    let posted := postIssueComment env.token env.commentAnalysisFailed
      (Event.comment item.repoOwner item.repoName item.issueNumber
        (analysisFailedBody e) false) evs
    { events := posted.1, git := s0, outcome := Outcome2.analysisFailed,
      err := match posted.2 with | Except.ok _ => none | Except.error e' => some e' }
  | Except.ok out =>
    match parseAnalysis out with
    | Except.error e =>
      let posted := postIssueComment env.token env.commentAnalysisFailed
        (Event.comment item.repoOwner item.repoName item.issueNumber
          (analysisFailedBody e) false) evs
      { events := posted.1, git := s0, outcome := Outcome2.analysisFailed,
        err := match posted.2 with | Except.ok _ => none | Except.error e' => some e' }
    | Except.ok parsed =>
      let analysis := normalizeAnalysisFields parsed
      if truthy (jget analysis "canResolve") then
        tryBlock env item analysis s0 evs
      else
        let posted := postIssueComment env.token env.commentCannotResolve
          (Event.comment item.repoOwner item.repoName item.issueNumber
            (cannotResolveBody analysis) false) evs
        { events := posted.1, git := s0, outcome := Outcome2.rejected,
          err := match posted.2 with | Except.ok _ => none | Except.error e' => some e' }

end V2

namespace Server

/-!
`src/server.js`: JSON re-serialization, signature verification, and the
`POST /webhook/github` handler.  The HMAC-SHA-256 primitive is a
parameter `hmac : String → String → String` (secret, message ↦ hex
digest); every theorem quantifies over it.
-/

/-- JSON string-literal escaping as `JSON.stringify` performs it. -/
def escapeChar (c : Char) : List Char :=
  if c = '"' then ['\\', '"']
  else if c = '\\' then ['\\', '\\']
  else if c = '\n' then ['\\', 'n']
  else if c = '\t' then ['\\', 't']
  else if c = '\r' then ['\\', 'r']
  else [c]

/-- `JSON.stringify` of a parsed value, fuel-structural. -/
def stringifyF : Nat → Json → String
  | _, Json.null => "null"
  | _, Json.bool true => "true"
  | _, Json.bool false => "false"
  | _, Json.num raw => raw
  | _, Json.str str => "\"" ++ String.mk (str.data.flatMap escapeChar) ++ "\""
  | 0, Json.arr _ => ""
  | 0, Json.obj _ => ""
  | fuel + 1, Json.arr xs =>
    "[" ++ String.intercalate "," (xs.map (stringifyF fuel)) ++ "]"
  | fuel + 1, Json.obj fs =>
    "\x7b"
      ++ String.intercalate ","
        (fs.map fun p =>
          "\"" ++ String.mk (p.1.data.flatMap escapeChar) ++ "\":" ++ stringifyF fuel p.2)
      ++ "\x7d"

/-- `JSON.stringify(req.body)` (the fuel bounds only nesting depth, far
beyond anything a claim exercises). -/
def jsonStringify (j : Json) : String := stringifyF 4096 j

/-- `crypto.timingSafeEqual` on the two digest buffers: throws when the
byte lengths differ, otherwise compares. -/
def timingSafeEqual (a b : String) : Except String Bool :=
  if a.utf8ByteSize = b.utf8ByteSize then Except.ok (a == b)
  else Except.error "Input buffers must have the same byte length"

/-- `verifySignature(req)`: skipped entirely (always true) when no secret
is configured; `false` when the header is absent; otherwise a
constant-time comparison of the header against
`'sha256=' + HMAC-SHA-256(secret, JSON.stringify(req.body))` — which can
throw (see `timingSafeEqual`). -/
def verifySignature (secret : Option String) (hmac : String → String → String)
    (sigHeader : Option String) (body : Json) : Except String Bool :=
  match secret with
  | none => Except.ok true
  | some sec =>
    match sigHeader with
    | none => Except.ok false
    | some sig =>
      timingSafeEqual sig ("sha256=" ++ hmac sec (jsonStringify body))

/-- HTTP response of the webhook route, plus whether the event reached
`handleIssue` (was "processed"). -/
structure WebResponse where
  status : Nat
  body : Json
  processed : Bool

/-- A `res.json({message: ...})` reply from the routing code. -/
def msgResp (msg : String) (processed : Bool) : WebResponse :=
  WebResponse.mk 200 (Json.obj [("message", Json.str msg)]) processed

/-- Event routing of the webhook handler after signature verification
(`issue_comment` created + mention, or `issues` opened). -/
def routeEvent (mention : Option String) (eventHeader : Option String)
    (payload : Json) : WebResponse :=
  if eventHeader = some "issue_comment" then
    if (match jget payload "action" with
        | some (Json.str a) => a == "created"
        | _ => false) then
      match mention with
      | none => msgResp "Mention user not configured" false
      | some u =>
        match (jget payload "comment").bind (fun c => jget c "body") with
        | some (Json.str cb) =>
          if strContainsB cb ("@" ++ u) then
            msgResp "Comment mention received, processing..." true
          else msgResp "No matching mention found" false
        | _ => msgResp "No matching mention found" false
    else msgResp "Action ignored" false
  else if eventHeader = some "issues" then
    if (match jget payload "action" with
        | some (Json.str a) => a == "opened"
        | _ => false) then
      msgResp "Issue received, processing..." true
    else msgResp "Action ignored" false
  else msgResp "Event ignored" false

/-- `POST /webhook/github`: `express.json()` parses the raw body (a
malformed body is rejected with 400 before the handler runs); then the
handler verifies the signature — a `verifySignature` throw escapes the
handler (`Except.error`, no response from this code path), an invalid
signature yields `401 {error:"Invalid signature"}` unprocessed, and a
valid one routes the event. -/
def webhookPost (secret : Option String) (hmac : String → String → String)
    (mention : Option String) (eventHeader sigHeader : Option String)
    (rawBody : String) : Except String WebResponse :=
  match jsonParse rawBody with
  | Except.error _ => Except.ok (WebResponse.mk 400 Json.null false)
  | Except.ok payload =>
    match verifySignature secret hmac sigHeader payload with
    | Except.error e => Except.error e
    | Except.ok false =>
      Except.ok
        (WebResponse.mk 401 (Json.obj [("error", Json.str "Invalid signature")]) false)
    | Except.ok true => Except.ok (routeEvent mention eventHeader payload)

end Server

/-! ### Claim theorems: webhook signature handling (C5, C9, C10) -/

/-- The 401 response of the webhook route. -/
def invalidSigResp : Server.WebResponse :=
  Server.WebResponse.mk 401 (Json.obj [("error", Json.str "Invalid signature")]) false

/-- C5: with a secret configured, a request whose body does not match its
`x-hub-signature-256` signature (a digest-shaped header, hence of the
expected byte length) and a request with no signature header at all both
get `401 {error:"Invalid signature"}` and are not processed; with no
secret configured, verification is skipped (true for every request). -/
theorem webhook_signature_gate :
    (∀ (sec : String) (hmac : String → String → String) (mention evH : Option String)
        (raw sig : String) (payload : Json),
        jsonParse raw = Except.ok payload →
        sig.utf8ByteSize =
          ("sha256=" ++ hmac sec (Server.jsonStringify payload)).utf8ByteSize →
        sig ≠ "sha256=" ++ hmac sec (Server.jsonStringify payload) →
        Server.webhookPost (some sec) hmac mention evH (some sig) raw =
          Except.ok invalidSigResp) ∧
    (∀ (sec : String) (hmac : String → String → String) (mention evH : Option String)
        (raw : String) (payload : Json),
        jsonParse raw = Except.ok payload →
        Server.webhookPost (some sec) hmac mention evH none raw =
          Except.ok invalidSigResp) ∧
    (∀ (hmac : String → String → String) (sigHeader : Option String) (body : Json),
        Server.verifySignature none hmac sigHeader body = Except.ok true) := by
  refine ⟨?_, ?_, ?_⟩
  · intro sec hmac mention evH raw sig payload hparse hlen hne
    unfold Server.webhookPost
    rw [hparse]
    unfold Server.verifySignature Server.timingSafeEqual
    simp only [hlen, if_pos rfl]
    have hb : (sig == "sha256=" ++ hmac sec (Server.jsonStringify payload)) = false := by
      simpa using hne
    simp [hb, invalidSigResp]
  · intro sec hmac mention evH raw payload hparse
    unfold Server.webhookPost
    rw [hparse]
    unfold Server.verifySignature
    rfl
  · intro hmac sigHeader body
    unfold Server.verifySignature
    rfl

/-- A stand-in 64-hex-character digest, used to instantiate the `hmac`
parameter in witnesses. -/
def fakeDigest : String :=
  "0000000000000000000000000000000000000000000000000000000000000000"

/-- A stale/mismatching but digest-shaped signature header. -/
def staleSig : String :=
  "sha256=1111111111111111111111111111111111111111111111111111111111111111"

theorem webhook_signature_gate_witness :
    Server.webhookPost (some "s") (fun _ _ => fakeDigest) (some "u") (some "issues")
        (some staleSig) "\x7b\x7d" = Except.ok invalidSigResp ∧
    Server.webhookPost (some "s") (fun _ _ => fakeDigest) (some "u") (some "issues")
        none "\x7b\x7d" = Except.ok invalidSigResp ∧
    Server.verifySignature none (fun _ _ => fakeDigest) (some "x") Json.null =
      Except.ok true := by
  refine ⟨?_, ?_, ?_⟩
  · exact webhook_signature_gate.1 "s" (fun _ _ => fakeDigest) (some "u") (some "issues")
      "\x7b\x7d" staleSig (Json.obj []) rfl (by decide) (by decide)
  · exact webhook_signature_gate.2.1 "s" (fun _ _ => fakeDigest) (some "u") (some "issues")
      "\x7b\x7d" (Json.obj []) rfl
  · exact webhook_signature_gate.2.2 (fun _ _ => fakeDigest) (some "x") Json.null

/-- C9: with a secret configured, a signature header whose byte length
differs from the expected digest string makes `crypto.timingSafeEqual`
throw, so `verifySignature` throws instead of returning false and the
handler never reaches its 401 branch (the exception escapes). -/
theorem signature_length_mismatch_throws (sec sig : String)
    (hmac : String → String → String) (payload : Json)
    (h : sig.utf8ByteSize ≠
        ("sha256=" ++ hmac sec (Server.jsonStringify payload)).utf8ByteSize) :
    Server.verifySignature (some sec) hmac (some sig) payload =
      Except.error "Input buffers must have the same byte length" ∧
    ∀ (mention evH : Option String) (raw : String),
      jsonParse raw = Except.ok payload →
      Server.webhookPost (some sec) hmac mention evH (some sig) raw =
        Except.error "Input buffers must have the same byte length" := by
  have hv : Server.verifySignature (some sec) hmac (some sig) payload =
      Except.error "Input buffers must have the same byte length" := by
    unfold Server.verifySignature Server.timingSafeEqual
    simp [h]
  refine ⟨hv, ?_⟩
  intro mention evH raw hparse
  unfold Server.webhookPost
  rw [hparse]
  simp [hv]

theorem signature_length_mismatch_throws_witness :
    Server.verifySignature (some "s") (fun _ _ => fakeDigest) (some "abc") (Json.obj []) =
      Except.error "Input buffers must have the same byte length" ∧
    Server.webhookPost (some "s") (fun _ _ => fakeDigest) (some "u") (some "issues")
        (some "abc") "\x7b\x7d" =
      Except.error "Input buffers must have the same byte length" := by
  have h := signature_length_mismatch_throws "s" "abc" (fun _ _ => fakeDigest)
    (Json.obj []) (by decide)
  exact ⟨h.1, h.2 (some "u") (some "issues") "\x7b\x7d" rfl⟩

/-- C10: the HMAC is computed over `JSON.stringify(req.body)` — the
re-serialization of the already-parsed body — so two raw bodies that
parse to the same JSON value get identical treatment (same verdict, same
response) under the same secret, hmac and headers. -/
theorem verify_uses_reserialized_body (secret : Option String)
    (hmac : String → String → String) (mention evH sigHeader : Option String)
    (raw1 raw2 : String) (payload : Json)
    (h1 : jsonParse raw1 = Except.ok payload)
    (h2 : jsonParse raw2 = Except.ok payload) :
    Server.webhookPost secret hmac mention evH sigHeader raw1 =
      Server.webhookPost secret hmac mention evH sigHeader raw2 := by
  unfold Server.webhookPost
  rw [h1, h2]

theorem verify_uses_reserialized_body_witness :
    Server.webhookPost (some "s") (fun _ _ => fakeDigest) (some "u") (some "issues")
        (some staleSig) "\x7b\"a\":1\x7d" =
      Server.webhookPost (some "s") (fun _ _ => fakeDigest) (some "u") (some "issues")
        (some staleSig) " \x7b \"a\" : 1 \x7d " :=
  verify_uses_reserialized_body (some "s") (fun _ _ => fakeDigest) (some "u")
    (some "issues") (some staleSig) "\x7b\"a\":1\x7d" " \x7b \"a\" : 1 \x7d "
    (Json.obj [("a", Json.num "1")]) rfl rfl

/-! ### Claim theorems: analysis-failure and rejection paths (C3, C4) -/

/-- Substring containment from an explicit split. -/
theorem strContainsP_intro (s p pre post : String)
    (h : s.data = pre.data ++ p.data ++ post.data) : strContainsP s p :=
  ⟨pre.data, post.data, h⟩

theorem strAppend_assoc (a b c : String) : a ++ b ++ c = a ++ (b ++ c) := by
  apply String.ext
  simp only [data_append, List.append_assoc]

/-- Substring containment from a string-level split. -/
theorem strContainsP_of_eq (s p pre post : String) (h : s = pre ++ (p ++ post)) :
    strContainsP s p := by
  apply strContainsP_intro s p pre post
  rw [h]
  simp only [data_append, List.append_assoc]

theorem analysisFailedBody_marker (isPR : Bool) (e : String) :
    strContainsP (V1.analysisFailedBody isPR e) "AutoClaude Analysis Failed" := by
  apply strContainsP_of_eq _ _ "🤖 **"
    ("**\n\nI encountered an error while trying to analyze this " ++ (itemType isPR
      ++ (". A human will need to review it.\n\nError: " ++ e)))
  have hA : ("🤖 **AutoClaude Analysis Failed**\n\nI encountered an error while trying to analyze this " : String)
      = "🤖 **" ++ "AutoClaude Analysis Failed"
        ++ "**\n\nI encountered an error while trying to analyze this " := rfl
  unfold V1.analysisFailedBody
  rw [hA]
  simp only [strAppend_assoc]

theorem analysisFailedBody_err (isPR : Bool) (e : String) :
    strContainsP (V1.analysisFailedBody isPR e) e := by
  apply strContainsP_intro _ _
    ("🤖 **AutoClaude Analysis Failed**\n\nI encountered an error while trying to analyze this "
      ++ itemType isPR ++ ". A human will need to review it.\n\nError: ") ""
  simp only [V1.analysisFailedBody, data_append, List.append_assoc, List.append_nil]

theorem analysisFailedBody2_marker (e : String) :
    strContainsP (V2.analysisFailedBody e) "AutoClaude Analysis Failed" := by
  apply strContainsP_of_eq _ _ " **"
    ("**\n\nI encountered an error while trying to analyze this issue. A human will need to review it.\n\nError: "
      ++ e)
  have hA : (" **AutoClaude Analysis Failed**\n\nI encountered an error while trying to analyze this issue. A human will need to review it.\n\nError: " : String)
      = " **" ++ "AutoClaude Analysis Failed"
        ++ "**\n\nI encountered an error while trying to analyze this issue. A human will need to review it.\n\nError: " := rfl
  unfold V2.analysisFailedBody
  rw [hA]
  simp only [strAppend_assoc]

theorem analysisFailedBody2_err (e : String) :
    strContainsP (V2.analysisFailedBody e) e := by
  apply strContainsP_intro _ _
    (" **AutoClaude Analysis Failed**\n\nI encountered an error while trying to analyze this issue. A human will need to review it.\n\nError: ")
    ""
  simp only [V2.analysisFailedBody, data_append, List.append_assoc, List.append_nil]

/-- C3: when the assistant invocation fails or its output has no
parseable JSON, the run ends on the `AnalysisFailed` path having issued
no git command (the git state is untouched, so no branch was created),
and exactly one comment is posted — the "Analysis Failed" comment, whose
body contains the raw error message.  Stated for the gh-CLI variant (any
configuration) and for the token-REST variant (token configured; without
a token that variant skips posting entirely). -/
theorem analysis_failure_no_vcs_one_comment :
    (∀ (env : V1.Env) (item : WorkItem) (s0 : GitState) (e : String),
        (env.claudeAnalysis = Except.error e ∨
          (∃ out, env.claudeAnalysis = Except.ok out ∧ parseAnalysis out = Except.error e)) →
        (V1.handleIssue env item s0).outcome = Outcome.analysisFailed ∧
        (V1.handleIssue env item s0).git = s0 ∧
        gitEvents (V1.handleIssue env item s0).events = [] ∧
        commentEvents (V1.handleIssue env item s0).events =
          [Event.comment item.repoOwner item.repoName item.issueNumber
            (V1.analysisFailedBody item.isPullRequest e) item.isPullRequest] ∧
        strContainsP (V1.analysisFailedBody item.isPullRequest e)
          "AutoClaude Analysis Failed" ∧
        strContainsP (V1.analysisFailedBody item.isPullRequest e) e) ∧
    (∀ (env : V2.Env) (item : WorkItem) (s0 : GitState) (e tok : String),
        env.token = some tok →
        (env.claudeAnalysis = Except.error e ∨
          (∃ out, env.claudeAnalysis = Except.ok out ∧ parseAnalysis out = Except.error e)) →
        (V2.handleIssue env item s0).outcome = V2.Outcome2.analysisFailed ∧
        (V2.handleIssue env item s0).git = s0 ∧
        gitEvents (V2.handleIssue env item s0).events = [] ∧
        commentEvents (V2.handleIssue env item s0).events =
          [Event.comment item.repoOwner item.repoName item.issueNumber
            (V2.analysisFailedBody e) false] ∧
        strContainsP (V2.analysisFailedBody e) "AutoClaude Analysis Failed" ∧
        strContainsP (V2.analysisFailedBody e) e) := by
  constructor
  · intro env item s0 e h
    rcases h with h | ⟨out, hout, hparse⟩
    · unfold V1.handleIssue
      simp only [h]
      refine ⟨?_, ?_, ?_, ?_, analysisFailedBody_marker _ _, analysisFailedBody_err _ _⟩ <;>
        simp [V1.analysisFailedResult, gitEvents, commentEvents, List.filter]
    · unfold V1.handleIssue
      simp only [hout, hparse]
      refine ⟨?_, ?_, ?_, ?_, analysisFailedBody_marker _ _, analysisFailedBody_err _ _⟩ <;>
        simp [V1.analysisFailedResult, gitEvents, commentEvents, List.filter]
  · intro env item s0 e tok htok h
    rcases h with h | ⟨out, hout, hparse⟩
    · unfold V2.handleIssue
      simp only [h]
      refine ⟨?_, ?_, ?_, ?_, analysisFailedBody2_marker _, analysisFailedBody2_err _⟩ <;>
        simp [V2.postIssueComment, htok, gitEvents, commentEvents, List.filter]
    · unfold V2.handleIssue
      simp only [hout, hparse]
      refine ⟨?_, ?_, ?_, ?_, analysisFailedBody2_marker _, analysisFailedBody2_err _⟩ <;>
        simp [V2.postIssueComment, htok, gitEvents, commentEvents, List.filter]

/-- Baseline work item for witnesses and counterexamples. -/
def itemIssue : WorkItem :=
  { issueNumber := 5, issueTitle := "Fix typo", issueBody := "typo in README",
    issueUrl := "http://example.com/5", repoOwner := "o", repoName := "r" }

/-- Baseline git state: checked out on `main`. -/
def gsMain : GitState := { current := "main", branches := ["main"] }

/-- All-successful environment for variant 1 (analysis resolvable, fix
leaves uncommitted changes, every external call succeeds). -/
def okEnvV1 : V1.Env :=
  { claudeAnalysis := Except.ok "\x7b\"canResolve\": true, \"confidence\": \"high\", \"reason\": \"clear bug\", \"approach\": \"fix it\", \"estimatedComplexity\": \"simple\"\x7d"
    claudeFix := Except.ok "Edited README"
    prInfo := Except.ok ("feature/x", "main")
    fetchPR := Except.ok ()
    checkoutPR := Except.ok ()
    checkoutNew := Except.ok ()
    gitStatus := Except.ok " M README.md"
    logOrigin := Except.ok ""
    logLocal := Except.ok ""
    noopCheckoutMain := Except.ok ()
    noopDeleteBranch := Except.ok ()
    addAll := Except.ok ()
    commitAll := Except.ok ()
    pushBranch := Except.ok ()
    createPRRes := Except.ok (some "12", "http://example.com/pull/12")
    finalCheckoutMain := Except.ok ()
    cleanupCheckoutMain := Except.ok ()
    cleanupDeleteBranch := Except.ok ()
    commentAnalysisFailed := Except.ok ()
    commentCannotResolve := Except.ok ()
    commentNoChanges := Except.ok ()
    commentPushed := Except.ok ()
    commentPRLink := Except.ok ()
    commentFixFailed := Except.ok () }

/-- All-successful environment for variant 2 (token configured). -/
def okEnvV2 : V2.Env :=
  { token := some "ghp_x"
    claudeAnalysis := Except.ok "\x7b\"canResolve\": true, \"confidence\": \"high\", \"reason\": \"clear bug\", \"approach\": \"fix it\", \"estimatedComplexity\": \"simple\"\x7d"
    claudeFix := Except.ok "Edited README"
    checkoutNew := Except.ok ()
    gitStatus := Except.ok " M README.md"
    noopCheckoutMain := Except.ok ()
    noopDeleteBranch := Except.ok ()
    addAll := Except.ok ()
    commitAll := Except.ok ()
    pushBranch := Except.ok ()
    createPRRes := Except.ok (12, "http://example.com/pull/12")
    finalCheckoutMain := Except.ok ()
    cleanupCheckoutMain := Except.ok ()
    cleanupDeleteBranch := Except.ok ()
    commentAnalysisFailed := Except.ok ()
    commentCannotResolve := Except.ok ()
    commentNoChanges := Except.ok ()
    commentPRLink := Except.ok ()
    commentFixFailed := Except.ok () }

theorem analysis_failure_no_vcs_one_comment_witness :
    (V1.handleIssue { okEnvV1 with claudeAnalysis := Except.error "boom" } itemIssue gsMain).outcome
        = Outcome.analysisFailed ∧
    gitEvents (V1.handleIssue { okEnvV1 with claudeAnalysis := Except.error "boom" } itemIssue gsMain).events
        = [] ∧
    (V2.handleIssue { okEnvV2 with claudeAnalysis := Except.ok "no json here" } itemIssue gsMain).outcome
        = V2.Outcome2.analysisFailed := by
  have h1 := analysis_failure_no_vcs_one_comment.1
    { okEnvV1 with claudeAnalysis := Except.error "boom" } itemIssue gsMain "boom"
    (Or.inl rfl)
  have h2 := analysis_failure_no_vcs_one_comment.2
    { okEnvV2 with claudeAnalysis := Except.ok "no json here" } itemIssue gsMain
    "No JSON found in response" "ghp_x" rfl
    (Or.inr ⟨"no json here", rfl, rfl⟩)
  exact ⟨h1.1, h1.2.2.1, h2.1⟩

theorem cannotResolveBody_reason (isPR : Bool) (a : Json) :
    strContainsP (V1.cannotResolveBody isPR a) (jsToStr (jget a "reason")) := by
  apply strContainsP_of_eq _ _
    ("🤖 **AutoClaude Analysis**\n\nI've analyzed this " ++ itemType isPR
      ++ " and determined that it **cannot be resolved automatically**.\n\n**Reason:** ")
    ("\n\n**Confidence:** " ++ (jsToStr (jget a "confidence")
      ++ ("\n\nThis " ++ (itemType isPR ++ " requires human attention."))))
  unfold V1.cannotResolveBody
  simp only [strAppend_assoc]

theorem cannotResolveBody_confidence (isPR : Bool) (a : Json) :
    strContainsP (V1.cannotResolveBody isPR a) (jsToStr (jget a "confidence")) := by
  apply strContainsP_of_eq _ _
    ("🤖 **AutoClaude Analysis**\n\nI've analyzed this " ++ itemType isPR
      ++ " and determined that it **cannot be resolved automatically**.\n\n**Reason:** "
      ++ jsToStr (jget a "reason") ++ "\n\n**Confidence:** ")
    ("\n\nThis " ++ (itemType isPR ++ " requires human attention."))
  unfold V1.cannotResolveBody
  simp only [strAppend_assoc]

theorem cannotResolveBody2_reason (a : Json) :
    strContainsP (V2.cannotResolveBody a) (jsToStr (jget a "reason")) := by
  apply strContainsP_of_eq _ _
    (" **AutoClaude Analysis**\n\nI've analyzed this issue and determined that it **cannot be resolved automatically**.\n\n**Reason:** ")
    ("\n\n**Confidence:** " ++ (jsToStr (jget a "confidence")
      ++ "\n\nThis issue requires human attention."))
  unfold V2.cannotResolveBody
  simp only [strAppend_assoc]

theorem cannotResolveBody2_confidence (a : Json) :
    strContainsP (V2.cannotResolveBody a) (jsToStr (jget a "confidence")) := by
  apply strContainsP_of_eq _ _
    (" **AutoClaude Analysis**\n\nI've analyzed this issue and determined that it **cannot be resolved automatically**.\n\n**Reason:** "
      ++ jsToStr (jget a "reason") ++ "\n\n**Confidence:** ")
    ("\n\nThis issue requires human attention.")
  unfold V2.cannotResolveBody
  simp only [strAppend_assoc]

/-- C4: when the parsed analysis has `canResolve = false`, the run ends
on the rejection path with no git command issued and the git state
untouched (no branch, no VCS mutation), and exactly one comment is
posted — the "cannot be resolved automatically" comment, containing the
analysis's `reason` and `confidence`.  Stated for the gh-CLI variant
(any configuration) and the token-REST variant (token configured, whose
analysis fields are first newline-normalized). -/
theorem cannot_resolve_rejects_without_vcs :
    (∀ (env : V1.Env) (item : WorkItem) (s0 : GitState) (out : String) (a : Json),
        env.claudeAnalysis = Except.ok out →
        parseAnalysis out = Except.ok a →
        jget a "canResolve" = some (Json.bool false) →
        (V1.handleIssue env item s0).outcome = Outcome.rejected ∧
        (V1.handleIssue env item s0).git = s0 ∧
        gitEvents (V1.handleIssue env item s0).events = [] ∧
        commentEvents (V1.handleIssue env item s0).events =
          [Event.comment item.repoOwner item.repoName item.issueNumber
            (V1.cannotResolveBody item.isPullRequest a) item.isPullRequest] ∧
        strContainsP (V1.cannotResolveBody item.isPullRequest a)
          (jsToStr (jget a "reason")) ∧
        strContainsP (V1.cannotResolveBody item.isPullRequest a)
          (jsToStr (jget a "confidence"))) ∧
    (∀ (env : V2.Env) (item : WorkItem) (s0 : GitState) (out tok : String) (a : Json),
        env.token = some tok →
        env.claudeAnalysis = Except.ok out →
        parseAnalysis out = Except.ok a →
        jget (V2.normalizeAnalysisFields a) "canResolve" = some (Json.bool false) →
        (V2.handleIssue env item s0).outcome = V2.Outcome2.rejected ∧
        (V2.handleIssue env item s0).git = s0 ∧
        gitEvents (V2.handleIssue env item s0).events = [] ∧
        commentEvents (V2.handleIssue env item s0).events =
          [Event.comment item.repoOwner item.repoName item.issueNumber
            (V2.cannotResolveBody (V2.normalizeAnalysisFields a)) false] ∧
        strContainsP (V2.cannotResolveBody (V2.normalizeAnalysisFields a))
          (jsToStr (jget (V2.normalizeAnalysisFields a) "reason")) ∧
        strContainsP (V2.cannotResolveBody (V2.normalizeAnalysisFields a))
          (jsToStr (jget (V2.normalizeAnalysisFields a) "confidence"))) := by
  constructor
  · intro env item s0 out a hout hparse hcr
    unfold V1.handleIssue
    simp only [hout, hparse, hcr]
    refine ⟨?_, ?_, ?_, ?_, cannotResolveBody_reason _ _, cannotResolveBody_confidence _ _⟩ <;>
      simp [truthy, V1.rejectedResult, gitEvents, commentEvents, List.filter]
  · intro env item s0 out tok a htok hout hparse hcr
    unfold V2.handleIssue
    simp only [hout, hparse, hcr]
    refine ⟨?_, ?_, ?_, ?_, cannotResolveBody2_reason _, cannotResolveBody2_confidence _⟩ <;>
      simp [truthy, V2.postIssueComment, htok, gitEvents, commentEvents, List.filter]

/-- Assistant analysis output whose verdict is `canResolve: false`. -/
def anaNoOut : String :=
  "\x7b\"canResolve\": false, \"confidence\": \"low\", \"reason\": \"too vague\", \"approach\": \"\", \"estimatedComplexity\": \"complex\"\x7d"

/-- The parsed form of `anaNoOut`. -/
def anaNoJson : Json :=
  Json.obj [("canResolve", Json.bool false), ("confidence", Json.str "low"),
    ("reason", Json.str "too vague"), ("approach", Json.str ""),
    ("estimatedComplexity", Json.str "complex")]

theorem cannot_resolve_rejects_without_vcs_witness :
    (V1.handleIssue { okEnvV1 with claudeAnalysis := Except.ok anaNoOut } itemIssue gsMain).outcome
        = Outcome.rejected ∧
    gitEvents (V1.handleIssue { okEnvV1 with claudeAnalysis := Except.ok anaNoOut } itemIssue gsMain).events
        = [] ∧
    (V2.handleIssue { okEnvV2 with claudeAnalysis := Except.ok anaNoOut } itemIssue gsMain).outcome
        = V2.Outcome2.rejected := by
  have h1 := cannot_resolve_rejects_without_vcs.1
    { okEnvV1 with claudeAnalysis := Except.ok anaNoOut } itemIssue gsMain anaNoOut
    anaNoJson rfl rfl rfl
  have h2 := cannot_resolve_rejects_without_vcs.2
    { okEnvV2 with claudeAnalysis := Except.ok anaNoOut } itemIssue gsMain anaNoOut
    "ghp_x" anaNoJson rfl rfl rfl rfl
  exact ⟨h1.1, h1.2.2.1, h2.1⟩

/-! ### Path lemmas for the variant 1 state machine (used by C1, C2, C6) -/

/-- The outcome labels reachable from inside the `try` block. -/
def tryOutcome (o : Outcome) : Prop :=
  o = Outcome.noChangesNeeded ∨ o = Outcome.fixPushedToExistingPR ∨
    o = Outcome.fixPullRequestCreated ∨ o = Outcome.fixFailed

theorem catchBlock_outcome (env : V1.Env) (item : WorkItem) (a : Json)
    (bn : Option String) (e : String) (s : GitState) (evs : List Event) :
    (V1.catchBlock env item a bn e s evs).outcome = Outcome.fixFailed := by
  unfold V1.catchBlock V1.postFailComment
  repeat' split
  all_goals rfl

theorem catchBlock_try (env : V1.Env) (item : WorkItem) (a : Json)
    (bn : Option String) (e : String) (s : GitState) (evs : List Event) :
    tryOutcome (V1.catchBlock env item a bn e s evs).outcome := by
  rw [catchBlock_outcome]
  exact Or.inr (Or.inr (Or.inr rfl))

theorem catchBlock_current (env : V1.Env)
    (hc : env.cleanupCheckoutMain = Except.ok ()) (item : WorkItem) (a : Json)
    (bn : Option String) (e : String) (s : GitState) (evs : List Event) :
    (V1.catchBlock env item a bn e s evs).git.current = "main" := by
  unfold V1.catchBlock V1.postFailComment
  simp only [hc]
  repeat' split
  all_goals rfl

theorem notMem_deleteBranch (s : GitState) (b : String) :
    b ∉ (s.deleteBranch b).branches := by
  simp [GitState.deleteBranch, List.mem_filter]

theorem catchBlock_notMem (env : V1.Env)
    (hc : env.cleanupCheckoutMain = Except.ok ())
    (hd : env.cleanupDeleteBranch = Except.ok ())
    (item : WorkItem) (hpr : item.isPullRequest = false) (a : Json)
    (b e : String) (s : GitState) (evs : List Event) :
    b ∉ (V1.catchBlock env item a (some b) e s evs).git.branches := by
  unfold V1.catchBlock V1.postFailComment
  simp only [hc, hpr, hd]
  exact notMem_deleteBranch _ _

theorem noopPath_current (env : V1.Env)
    (hc : env.cleanupCheckoutMain = Except.ok ()) (item : WorkItem) (a : Json)
    (b : String) (s : GitState) (evs : List Event) :
    (V1.noopPath env item a b s evs).git.current = "main" := by
  unfold V1.noopPath
  try dsimp only
  repeat' split
  all_goals first
    | rfl
    | apply catchBlock_current env hc

theorem noopPath_try (env : V1.Env) (item : WorkItem) (a : Json)
    (b : String) (s : GitState) (evs : List Event) :
    tryOutcome (V1.noopPath env item a b s evs).outcome := by
  unfold V1.noopPath
  try dsimp only
  repeat' split
  all_goals first
    | exact Or.inl rfl
    | apply catchBlock_try

theorem noopPath_notMem (env : V1.Env)
    (hc : env.cleanupCheckoutMain = Except.ok ())
    (hd : env.cleanupDeleteBranch = Except.ok ())
    (item : WorkItem) (hpr : item.isPullRequest = false) (a : Json)
    (b : String) (s : GitState) (evs : List Event) :
    b ∉ (V1.noopPath env item a b s evs).git.branches := by
  unfold V1.noopPath
  simp only [hpr]
  try dsimp only
  repeat' split
  all_goals first
    | exact catchBlock_notMem env hc hd item hpr _ _ _ _ _
    | exact notMem_deleteBranch _ _
    | simp_all

theorem publishPath_current (env : V1.Env)
    (hc : env.cleanupCheckoutMain = Except.ok ()) (item : WorkItem) (a : Json)
    (b bb fx : String) (hu : Bool) (s : GitState) (evs : List Event) :
    (V1.publishPath env item a b bb fx hu s evs).git.current = "main" := by
  unfold V1.publishPath
  try dsimp only
  repeat' split
  all_goals first
    | rfl
    | apply catchBlock_current env hc

theorem publishPath_try (env : V1.Env) (item : WorkItem) (a : Json)
    (b bb fx : String) (hu : Bool) (s : GitState) (evs : List Event) :
    tryOutcome (V1.publishPath env item a b bb fx hu s evs).outcome := by
  unfold V1.publishPath
  try dsimp only
  repeat' split
  all_goals first
    | exact Or.inr (Or.inl rfl)
    | exact Or.inr (Or.inr (Or.inl rfl))
    | apply catchBlock_try

theorem publishPath_notMem (env : V1.Env)
    (hc : env.cleanupCheckoutMain = Except.ok ())
    (hd : env.cleanupDeleteBranch = Except.ok ())
    (item : WorkItem) (hpr : item.isPullRequest = false) (a : Json)
    (b bb fx : String) (hu : Bool) (s : GitState) (evs : List Event)
    (hout : (V1.publishPath env item a b bb fx hu s evs).outcome = Outcome.noChangesNeeded ∨
      (V1.publishPath env item a b bb fx hu s evs).outcome = Outcome.fixFailed) :
    b ∉ (V1.publishPath env item a b bb fx hu s evs).git.branches := by
  revert hout
  unfold V1.publishPath
  simp only [hpr]
  try dsimp only
  repeat' split
  all_goals intro hout
  all_goals first
    | exact catchBlock_notMem env hc hd item hpr _ _ _ _ _
    | (rcases hout with h | h <;> simp at h)

theorem fixStage_current (env : V1.Env)
    (hc : env.cleanupCheckoutMain = Except.ok ()) (item : WorkItem) (a : Json)
    (b bb : String) (s : GitState) (evs : List Event) :
    (V1.fixStage env item a b bb s evs).git.current = "main" := by
  unfold V1.fixStage
  try dsimp only
  repeat' split
  all_goals first
    | apply catchBlock_current env hc
    | apply noopPath_current env hc
    | apply publishPath_current env hc

theorem fixStage_try (env : V1.Env) (item : WorkItem) (a : Json)
    (b bb : String) (s : GitState) (evs : List Event) :
    tryOutcome (V1.fixStage env item a b bb s evs).outcome := by
  unfold V1.fixStage
  try dsimp only
  repeat' split
  all_goals first
    | apply catchBlock_try
    | apply noopPath_try
    | apply publishPath_try

theorem fixStage_notMem (env : V1.Env)
    (hc : env.cleanupCheckoutMain = Except.ok ())
    (hd : env.cleanupDeleteBranch = Except.ok ())
    (item : WorkItem) (hpr : item.isPullRequest = false) (a : Json)
    (b bb : String) (s : GitState) (evs : List Event)
    (hout : (V1.fixStage env item a b bb s evs).outcome = Outcome.noChangesNeeded ∨
      (V1.fixStage env item a b bb s evs).outcome = Outcome.fixFailed) :
    b ∉ (V1.fixStage env item a b bb s evs).git.branches := by
  revert hout
  unfold V1.fixStage
  try dsimp only
  repeat' split
  all_goals intro hout
  all_goals first
    | exact catchBlock_notMem env hc hd item hpr _ _ _ _ _
    | exact noopPath_notMem env hc hd item hpr _ _ _ _
    | exact publishPath_notMem env hc hd item hpr _ _ _ _ _ _ _ hout

theorem branchStage_current (env : V1.Env)
    (hc : env.cleanupCheckoutMain = Except.ok ()) (item : WorkItem) (a : Json)
    (s : GitState) (evs : List Event) :
    (V1.branchStage env item a s evs).git.current = "main" := by
  unfold V1.branchStage
  try dsimp only
  repeat' split
  all_goals first
    | apply catchBlock_current env hc
    | apply fixStage_current env hc

theorem branchStage_try (env : V1.Env) (item : WorkItem) (a : Json)
    (s : GitState) (evs : List Event) :
    tryOutcome (V1.branchStage env item a s evs).outcome := by
  unfold V1.branchStage
  try dsimp only
  repeat' split
  all_goals first
    | apply catchBlock_try
    | apply fixStage_try

theorem branchStage_notMem (env : V1.Env)
    (hc : env.cleanupCheckoutMain = Except.ok ())
    (hd : env.cleanupDeleteBranch = Except.ok ())
    (item : WorkItem) (hpr : item.isPullRequest = false) (a : Json)
    (s : GitState) (evs : List Event)
    (hout : (V1.branchStage env item a s evs).outcome = Outcome.noChangesNeeded ∨
      (V1.branchStage env item a s evs).outcome = Outcome.fixFailed) :
    ("autoclaude/issue-" ++ toString item.issueNumber) ∉
      (V1.branchStage env item a s evs).git.branches := by
  revert hout
  unfold V1.branchStage
  simp only [hpr]
  try dsimp only
  repeat' split
  all_goals intro hout
  all_goals first
    | exact catchBlock_notMem env hc hd item hpr _ _ _ _ _
    | exact fixStage_notMem env hc hd item hpr _ _ _ _ _ hout
    | simp_all

/-! ### Claim theorems: end-of-run git invariants (C1, C2) and JSON
extraction (C6) -/

/-- Environment whose fix stage fails and whose best-effort cleanup
checkout of `main` also fails. -/
def envCleanupCheckoutFails : V1.Env :=
  { okEnvV1 with claudeFix := Except.error "assistant crashed",
                 cleanupCheckoutMain := Except.error "checkout failed" }

set_option maxRecDepth 100000 in
/-- C1 counterexample: starting on `main`, when the fix stage throws and
the cleanup `git checkout main` itself fails (its error is swallowed),
the run completes with outcome `FixFailed` while the working tree is
still on the feature branch — the claimed invariant does not hold on
every path. -/
theorem run_may_end_off_main :
    gsMain.current = "main" ∧
    (V1.handleIssue envCleanupCheckoutFails itemIssue gsMain).outcome = Outcome.fixFailed ∧
    (V1.handleIssue envCleanupCheckoutFails itemIssue gsMain).git.current =
      "autoclaude/issue-5" ∧
    ¬(V1.handleIssue envCleanupCheckoutFails itemIssue gsMain).git.current = "main" := by
  refine ⟨rfl, rfl, rfl, ?_⟩
  decide

/-- C1 (amended): for every run that starts on `main`, the working tree
is back on `main` at completion on every path — including exceptions —
provided the best-effort cleanup `git checkout main` of the failure path
does not itself fail (its error is swallowed, so when it fails the tree
can be left on the feature branch). -/
theorem run_ends_on_main (env : V1.Env) (item : WorkItem) (s0 : GitState)
    (h0 : s0.current = "main") (hc : env.cleanupCheckoutMain = Except.ok ()) :
    (V1.handleIssue env item s0).git.current = "main" := by
  unfold V1.handleIssue V1.analysisFailedResult V1.rejectedResult
  try dsimp only
  repeat' split
  all_goals first
    | exact h0
    | apply branchStage_current env hc

theorem run_ends_on_main_witness :
    (V1.handleIssue okEnvV1 itemIssue gsMain).git.current = "main" :=
  run_ends_on_main okEnvV1 itemIssue gsMain rfl rfl

/-- Environment whose fix stage fails and whose best-effort
`git branch -D` in the cleanup fails (the error is swallowed). -/
def envCleanupDeleteFails : V1.Env :=
  { okEnvV1 with claudeFix := Except.error "assistant crashed",
                 cleanupDeleteBranch := Except.error "delete failed" }

set_option maxRecDepth 100000 in
/-- C2 counterexample: an issue run that ends with outcome `FixFailed`
can leave `autoclaude/issue-5` in the local branch list when the
best-effort cleanup deletion fails (its error is swallowed). -/
theorem fresh_branch_may_survive :
    itemIssue.isPullRequest = false ∧
    (V1.handleIssue envCleanupDeleteFails itemIssue gsMain).outcome = Outcome.fixFailed ∧
    "autoclaude/issue-5" ∈
      (V1.handleIssue envCleanupDeleteFails itemIssue gsMain).git.branches := by
  refine ⟨rfl, rfl, ?_⟩
  decide

/-- C2 (amended): for every issue-triggered run that ends with outcome
`NoChangesNeeded` or `FixFailed`, the branch `autoclaude/issue-<n>` is no
longer in the local branch list — provided the best-effort cleanup
checkout of `main` and branch deletion succeed when the failure path
runs them (their errors are swallowed, so when deletion fails the branch
survives). -/
theorem fresh_branch_removed (env : V1.Env) (item : WorkItem) (s0 : GitState)
    (hpr : item.isPullRequest = false)
    (hc : env.cleanupCheckoutMain = Except.ok ())
    (hd : env.cleanupDeleteBranch = Except.ok ())
    (hout : (V1.handleIssue env item s0).outcome = Outcome.noChangesNeeded ∨
      (V1.handleIssue env item s0).outcome = Outcome.fixFailed) :
    ("autoclaude/issue-" ++ toString item.issueNumber) ∉
      (V1.handleIssue env item s0).git.branches := by
  revert hout
  unfold V1.handleIssue V1.analysisFailedResult V1.rejectedResult
  try dsimp only
  repeat' split
  all_goals intro hout
  all_goals first
    | exact branchStage_notMem env hc hd item hpr _ _ _ hout
    | (rcases hout with h | h <;> simp at h)

/-- Environment whose run fails during the fix stage but whose cleanup
succeeds. -/
def envFixFails : V1.Env :=
  { okEnvV1 with claudeFix := Except.error "assistant crashed" }

theorem fresh_branch_removed_witness :
    "autoclaude/issue-5" ∉
      (V1.handleIssue envFixFails itemIssue gsMain).git.branches :=
  fresh_branch_removed envFixFails itemIssue gsMain rfl rfl rfl (Or.inr rfl)

/-- Assistant output containing two JSON objects: its first balanced
object substring is valid JSON, but the source's greedy first-brace to
last-brace span is not. -/
def twoObjects : String := "\x7b\"a\":1\x7d \x7b\"b\":2\x7d"

set_option maxRecDepth 100000 in
/-- C6 counterexample: the extraction is NOT "the first balanced JSON
object substring".  On `twoObjects` the first balanced object parses
fine, yet the code's regex takes the whole first-to-last-brace span,
`JSON.parse` fails on it, and the run ends `AnalysisFailed`. -/
theorem first_balanced_object_not_used :
    firstBalancedObject twoObjects = some "\x7b\"a\":1\x7d" ∧
    jsonParse "\x7b\"a\":1\x7d" = Except.ok (Json.obj [("a", Json.num "1")]) ∧
    extractJson twoObjects = some twoObjects ∧
    (V1.handleIssue { okEnvV1 with claudeAnalysis := Except.ok twoObjects }
        itemIssue gsMain).outcome = Outcome.analysisFailed :=
  ⟨rfl, rfl, rfl, rfl⟩

/-- C6 (amended): the Analysis is recovered by parsing the substring of
the assistant output spanning from the first opening brace to the last
closing brace (the greedy `/\{[\s\S]*\}/` match, see `extractJson`), not
the first balanced object; the run hard-fails with outcome
`AnalysisFailed` exactly when that span is absent or is not parseable
JSON. -/
theorem analysis_extraction_greedy (env : V1.Env) (item : WorkItem) (s0 : GitState)
    (out : String) (h : env.claudeAnalysis = Except.ok out) :
    ((V1.handleIssue env item s0).outcome = Outcome.analysisFailed ↔
      ∃ e, parseAnalysis out = Except.error e) := by
  cases hp : parseAnalysis out with
  | error e =>
    constructor
    · intro _
      exact ⟨e, rfl⟩
    · intro _
      unfold V1.handleIssue
      simp only [h, hp]
      rfl
  | ok a =>
    constructor
    · intro hfail
      exfalso
      revert hfail
      unfold V1.handleIssue
      simp only [h, hp]
      split
      · intro hfail
        rcases branchStage_try env item a _ _ with h1 | h1 | h1 | h1 <;>
          rw [hfail] at h1 <;> exact absurd h1 (by decide)
      · intro hfail
        simp [V1.rejectedResult] at hfail
    · rintro ⟨e, hpe⟩
      exact absurd hpe (by simp)


theorem analysis_extraction_greedy_witness :
    ((V1.handleIssue { okEnvV1 with claudeAnalysis := Except.ok "no json at all" }
        itemIssue gsMain).outcome = Outcome.analysisFailed ↔
      ∃ e, parseAnalysis "no json at all" = Except.error e) :=
  analysis_extraction_greedy
    { okEnvV1 with claudeAnalysis := Except.ok "no json at all" }
    itemIssue gsMain "no json at all" rfl

/-! ### Claim theorems: PR creation without credentials (C7) -/

/-- C7: in the token-REST variant without credentials,
`createPullRequest` does not throw — it returns `null` without issuing
any call — and the orchestrator treats the `null` as "PR not created":
the PR-linking comment is skipped and the run completes on the normal
path (outcome `published none`, no escaping error, no comment posted,
never entering the failure path). -/
theorem null_pr_tolerated (env : V2.Env) (item : WorkItem) (s0 : GitState)
    (out fx st : String) (a : Json)
    (htok : env.token = none)
    (ha : env.claudeAnalysis = Except.ok out)
    (hp : parseAnalysis out = Except.ok a)
    (hcr : truthy (jget (V2.normalizeAnalysisFields a) "canResolve") = true)
    (hb : env.checkoutNew = Except.ok ())
    (hf : env.claudeFix = Except.ok fx)
    (hs : env.gitStatus = Except.ok st)
    (hst : ¬jsTrim st = "")
    (h4 : env.addAll = Except.ok ())
    (h5 : env.commitAll = Except.ok ())
    (h6 : env.pushBranch = Except.ok ())
    (h7 : env.finalCheckoutMain = Except.ok ()) :
    (∀ (r : Except String (Nat × String)) (ev : Event) (evs : List Event),
        (V2.createPullRequest none r ev evs).2 = Except.ok none ∧
        (V2.createPullRequest none r ev evs).1 = evs) ∧
    (V2.handleIssue env item s0).outcome = V2.Outcome2.published none ∧
    (V2.handleIssue env item s0).err = none ∧
    commentEvents (V2.handleIssue env item s0).events = [] := by
  refine ⟨fun r ev evs => ⟨rfl, rfl⟩, ?_⟩
  unfold V2.handleIssue V2.tryBlock V2.postIssueComment V2.createPullRequest
  simp only [ha, hp, htok, hcr, if_true, hb, hf, hs, if_neg hst, h4, h5, h6, h7]
  simp [commentEvents, List.filter]

set_option maxRecDepth 100000 in
theorem null_pr_tolerated_witness :
    (V2.handleIssue { okEnvV2 with token := none } itemIssue gsMain).outcome =
      V2.Outcome2.published none ∧
    (V2.handleIssue { okEnvV2 with token := none } itemIssue gsMain).err = none ∧
    commentEvents (V2.handleIssue { okEnvV2 with token := none } itemIssue gsMain).events
      = [] := by
  have h := null_pr_tolerated { okEnvV2 with token := none } itemIssue gsMain
    "\x7b\"canResolve\": true, \"confidence\": \"high\", \"reason\": \"clear bug\", \"approach\": \"fix it\", \"estimatedComplexity\": \"simple\"\x7d"
    "Edited README" " M README.md"
    (Json.obj [("canResolve", Json.bool true), ("confidence", Json.str "high"),
      ("reason", Json.str "clear bug"), ("approach", Json.str "fix it"),
      ("estimatedComplexity", Json.str "simple")])
    rfl rfl rfl rfl rfl rfl rfl (by decide) rfl rfl rfl rfl
  exact h.2

/-! ### Claim theorems: escaped-newline normalization (C8) -/

/-- The head of a normalized non-empty list is the original head or a
newline produced from an escape pair. -/
theorem normNL_head (c : Char) (rest : List Char) :
    (normNL (c :: rest)).head? = some c ∨ (normNL (c :: rest)).head? = some '\n' := by
  cases rest with
  | nil => exact Or.inl rfl
  | cons r rs =>
    unfold normNL
    split
    · exact Or.inr rfl
    · exact Or.inl rfl

/-- After `normalizeNewlines`, no backslash-`n` pair remains. -/
theorem normNL_no_escape (l : List Char) :
    containsL ['\\', 'n'] (normNL l) = false := by
  induction l using normNL.induct with
  | case1 => rfl
  | case2 c =>
    simp [normNL, containsL, startsWithL]
  | case3 c1 c2 rest h ih =>
    rw [normNL, if_pos h]
    simp [containsL, startsWithL, ih]
  | case4 c1 c2 rest h ih =>
    rw [normNL, if_neg h]
    simp only [containsL, Bool.or_eq_false_iff]
    refine ⟨?_, ih⟩
    simp only [startsWithL, Bool.and_eq_false_iff]
    by_cases hc1 : c1 = '\\'
    · right
      have hc2 : ¬c2 = 'n' := fun hn => h ⟨hc1, hn⟩
      have hh := normNL_head c2 rest
      cases hX : normNL (c2 :: rest) with
      | nil => rfl
      | cons x xs =>
        rw [hX] at hh
        simp only [List.head?, Option.some.injEq] at hh
        simp only [startsWithL, Bool.and_eq_false_iff]
        left
        simp only [decide_eq_false_iff_not]
        rcases hh with hh | hh
        · subst hh
          exact fun hnx => hc2 hnx.symm
        · subst hh
          decide
    · left
      simp only [decide_eq_false_iff_not]
      exact fun hh => hc1 hh.symm

/-- Assistant output whose JSON carries a literal backslash-`n` escape
sequence inside the `reason` string field. -/
def escapedReasonOut : String :=
  "\x7b\"canResolve\": false, \"reason\": \"line1\\\\nline2\", \"confidence\": \"high\"\x7d"

/-- The parse of `escapedReasonOut`: the reason holds a literal
backslash-`n` two-character sequence. -/
def escapedReasonJson : Json :=
  Json.obj [("canResolve", Json.bool false), ("reason", Json.str "line1\\nline2"),
    ("confidence", Json.str "high")]

set_option maxRecDepth 1000000 in
/-- C8 counterexample: the gh-CLI variant performs NO newline
normalization — when the parsed `reason` contains a backslash-`n`
sequence, the posted "cannot be resolved" comment still contains it
verbatim and does not contain the newline form the claim requires. -/
theorem v1_posts_unnormalized_newlines :
    jsonParse (escapedReasonOut.drop 0) = Except.ok escapedReasonJson ∧
    (V1.handleIssue { okEnvV1 with claudeAnalysis := Except.ok escapedReasonOut }
        itemIssue gsMain).outcome = Outcome.rejected ∧
    commentEvents (V1.handleIssue { okEnvV1 with claudeAnalysis := Except.ok escapedReasonOut }
        itemIssue gsMain).events =
      [Event.comment "o" "r" 5 (V1.cannotResolveBody false escapedReasonJson) false] ∧
    strContainsB (V1.cannotResolveBody false escapedReasonJson) "line1\\nline2" = true ∧
    strContainsB (V1.cannotResolveBody false escapedReasonJson) "line1\nline2" = false := by
  refine ⟨rfl, rfl, ?_, ?_, ?_⟩ <;> decide

/-- The `createPR` calls of a trace. -/
def createPREvents (evs : List Event) : List Event :=
  evs.filter fun e => match e with | Event.createPR _ _ _ _ _ _ => true | _ => false

/-- C8 (amended): normalization of escaped newlines happens only in the
token-REST variant: there, every top-level string field of the parsed
Analysis passes through `normalizeNewlines` (after which no
backslash-`n` pair remains) before it reaches an outward message — shown
for the rejection comment — and the assistant fix summary is normalized
before it reaches the PR body.  The gh-CLI variant posts the strings
unnormalized (see the counterexample). -/
theorem rest_variant_normalizes_newlines :
    (∀ s : String, strContainsB (normalizeNewlines s) "\\n" = false) ∧
    (∀ (env : V2.Env) (item : WorkItem) (s0 : GitState) (out tok : String) (a : Json),
        env.token = some tok →
        env.claudeAnalysis = Except.ok out →
        parseAnalysis out = Except.ok a →
        jget (V2.normalizeAnalysisFields a) "canResolve" = some (Json.bool false) →
        commentEvents (V2.handleIssue env item s0).events =
          [Event.comment item.repoOwner item.repoName item.issueNumber
            (V2.cannotResolveBody (V2.normalizeAnalysisFields a)) false]) ∧
    (∀ (env : V2.Env) (item : WorkItem) (s0 : GitState) (out fx st tok : String) (a : Json)
        (pr : Nat × String),
        env.token = some tok →
        env.claudeAnalysis = Except.ok out →
        parseAnalysis out = Except.ok a →
        truthy (jget (V2.normalizeAnalysisFields a) "canResolve") = true →
        env.checkoutNew = Except.ok () →
        env.claudeFix = Except.ok fx →
        env.gitStatus = Except.ok st →
        ¬jsTrim st = "" →
        env.addAll = Except.ok () →
        env.commitAll = Except.ok () →
        env.pushBranch = Except.ok () →
        env.createPRRes = Except.ok pr →
        env.commentPRLink = Except.ok () →
        env.finalCheckoutMain = Except.ok () →
        createPREvents (V2.handleIssue env item s0).events =
          [Event.createPR item.repoOwner item.repoName
            ("fix: " ++ item.issueTitle ++ " (Issue #" ++ toString item.issueNumber ++ ")")
            (V2.prBodyText item.issueNumber (normalizeNewlines fx)
              (V2.normalizeAnalysisFields a))
            ("autoclaude/issue-" ++ toString item.issueNumber) "main"]) := by
  refine ⟨?_, ?_, ?_⟩
  · intro s
    exact normNL_no_escape s.data
  · intro env item s0 out tok a htok ha hp hcr
    unfold V2.handleIssue
    simp only [ha, hp, hcr]
    simp [truthy, V2.postIssueComment, htok, commentEvents, List.filter]
  · intro env item s0 out fx st tok a pr htok ha hp hcr hb hf hs hst h4 h5 h6 h8 h9 h10
    unfold V2.handleIssue V2.tryBlock V2.postIssueComment V2.createPullRequest
    simp only [ha, hp, htok, hcr, if_true, hb, hf, hs, if_neg hst, h4, h5, h6, h8, h9,
      h10, Except.map]
    simp [createPREvents, List.filter]

set_option maxRecDepth 1000000 in
theorem rest_variant_normalizes_newlines_witness :
    strContainsB (normalizeNewlines "a\\nb") "\\n" = false ∧
    commentEvents (V2.handleIssue { okEnvV2 with claudeAnalysis := Except.ok escapedReasonOut }
        itemIssue gsMain).events =
      [Event.comment "o" "r" 5
        (V2.cannotResolveBody (V2.normalizeAnalysisFields escapedReasonJson)) false] ∧
    createPREvents (V2.handleIssue okEnvV2 itemIssue gsMain).events =
      [Event.createPR "o" "r" "fix: Fix typo (Issue #5)"
        (V2.prBodyText 5 (normalizeNewlines "Edited README")
          (V2.normalizeAnalysisFields (Json.obj [("canResolve", Json.bool true),
            ("confidence", Json.str "high"), ("reason", Json.str "clear bug"),
            ("approach", Json.str "fix it"), ("estimatedComplexity", Json.str "simple")])))
        "autoclaude/issue-5" "main"] := by
  refine ⟨rest_variant_normalizes_newlines.1 "a\\nb", ?_, ?_⟩
  · exact rest_variant_normalizes_newlines.2.1
      { okEnvV2 with claudeAnalysis := Except.ok escapedReasonOut } itemIssue gsMain
      escapedReasonOut "ghp_x" escapedReasonJson rfl rfl rfl rfl
  · exact rest_variant_normalizes_newlines.2.2 okEnvV2 itemIssue gsMain
      "\x7b\"canResolve\": true, \"confidence\": \"high\", \"reason\": \"clear bug\", \"approach\": \"fix it\", \"estimatedComplexity\": \"simple\"\x7d"
      "Edited README" " M README.md" "ghp_x"
      (Json.obj [("canResolve", Json.bool true), ("confidence", Json.str "high"),
        ("reason", Json.str "clear bug"), ("approach", Json.str "fix it"),
        ("estimatedComplexity", Json.str "simple")])
      (12, "http://example.com/pull/12")
      rfl rfl rfl rfl rfl rfl rfl (by decide) rfl rfl rfl rfl rfl rfl

end AutoClaude
